import Mathlib

/-!
Verification of the message-driven orchestration core of the
AssetManagement_DataAnalytics_ADK repository.

The Python sources are shallowly embedded: JSON-serializable Python values
become the inductive type `Json`; each agent's `process_message` becomes a
pure function from the inbound message (and an environment record carrying
the outcomes of its external collaborators: market-data provider, warehouse,
language model, object store, clock, id generator) to the ordered list of
side effects it performs (`Effect`).  Publishing to the message broker is
modelled as reliable (a publish that raises is not modelled; every claim
below concerns domain logic, not broker transport).  `print` diagnostics are
not modelled.

Sources embedded:
  - src/common/adk_base.py            (ADKBaseAgent)
  - src/common/constants.py           (topic and table names)
  - src/agents/coordinator_agent/agent.py
  - src/agents/financial_metrics_agent/agent.py
  - src/agents/numerical_summarizer_agent/agent.py
  - src/agents/report_generator_agent/agent.py, report_templates.py
  - src/tools/bigquery_tool.py, gemini_tool.py (their result contracts)
-/

/-- A JSON-serializable Python value: `None`, `bool`, `int`, `str`, `list`,
`dict` (an insertion-ordered association list, as Python dicts are).
Python floats are outside the modelled domain: every number the claims
touch is carried opaquely, never computed with. -/
inductive Json where
  | null
  | bool (b : Bool)
  | num (n : Int)
  | str (s : String)
  | arr (xs : List Json)
  | obj (kvs : List (String × Json))

namespace Json

/-- `d.get(k)`: the value bound to `k`, `None` (here `none`) when absent or
when the receiver is not a dict.  (In Python a `.get` on a non-dict raises
`AttributeError`; every call site embedded below either guards the receiver
or catches the exception on a path whose observable effects coincide with
the `none` reading, as noted at each site.) -/
def get? : Json → String → Option Json
  | .obj kvs, k => kvs.lookup k
  | _, _ => none

/-- Python truthiness of a JSON-serializable value: `None`, `False`, `0`,
`""`, `[]` and `{}` are falsy, everything else truthy. -/
def truthy : Json → Bool
  | .null => false
  | .bool b => b
  | .num n => n != 0
  | .str s => s != ""
  | .arr xs => !xs.isEmpty
  | .obj kvs => !kvs.isEmpty

end Json


/-- Truthiness of an optional value (a `dict.get` result): `None` is falsy. -/
def truthy? : Option Json → Bool
  | none => false
  | some j => j.truthy

/-- A `dict.get` result as a Python value: a missing key reads as `None`. -/
def orNull (o : Option Json) : Json := o.getD .null

/-- Python `x == s` for a string literal `s`: true exactly when `x` is a
string with those characters (equality across Python types is `False`). -/
def isStrVal (o : Option Json) (s : String) : Bool :=
  match o with
  | some (.str t) => t == s
  | _ => false

mutual
/-- `repr(x)` for a JSON-serializable Python value (used when a container is
interpolated into an f-string; string escaping inside reprs is not
reproduced, no claim depends on it). -/
def pyRepr : Json → String
  | .null => "None"
  | .bool true => "True"
  | .bool false => "False"
  | .num n => toString n
  | .str s => "'" ++ s ++ "'"
  | .arr xs => "[" ++ pyReprArr xs ++ "]"
  | .obj kvs => "\x7b" ++ pyReprObj kvs ++ "\x7d"

/-- Comma-joined reprs of a list's elements. -/
def pyReprArr : List Json → String
  | [] => ""
  | [x] => pyRepr x
  | x :: xs => pyRepr x ++ ", " ++ pyReprArr xs

/-- Comma-joined `'key': value` reprs of a dict's items. -/
def pyReprObj : List (String × Json) → String
  | [] => ""
  | [(k, v)] => "'" ++ k ++ "': " ++ pyRepr v
  | (k, v) :: kvs => "'" ++ k ++ "': " ++ pyRepr v ++ ", " ++ pyReprObj kvs
end


/-- `str(x)`, as an f-string interpolation renders a Python value. -/
def pyStr : Json → String
  | .str s => s
  | j => pyRepr j

/-- `str(x)` of a `dict.get` result (`str(None)` is `"None"`). -/
def pyStr? (o : Option Json) : String := pyStr (orNull o)

/-! ### Topic and table names (src/common/constants.py) -/

def PUBSUB_TOPIC_FINANCIAL_DATA_REQUESTS : String := "financial-data-requests-topic"

def PUBSUB_TOPIC_FINANCIAL_DATA_AVAILABLE : String := "financial-data-available-topic"

def PUBSUB_TOPIC_NUMERICAL_SUMMARIES_REQUESTS : String := "numerical-summaries-requests-topic"

def PUBSUB_TOPIC_NUMERICAL_INSIGHTS_PROCESSED : String := "numerical-insights-processed-topic"

def PUBSUB_TOPIC_REPORT_GENERATION_REQUESTS : String := "report-generation-requests-topic"

def PUBSUB_TOPIC_REPORT_GENERATION_COMPLETED : String := "report-generation-completed-topic"

def PUBSUB_TOPIC_DASHBOARD_UPDATES : String := "dashboard-updates-topic"

def BIGQUERY_TABLE_FINANCIAL_METRICS : String := "financial_metrics"

def BIGQUERY_TABLE_NUMERICAL_INSIGHTS : String := "numerical_insights"

def BIGQUERY_TABLE_REPORT_METADATA : String := "report_metadata"

/-! ### Effects

One constructor per kind of externally visible action an agent performs, in
program order.  A dashboard status update is `publish` to
`PUBSUB_TOPIC_DASHBOARD_UPDATES` (the source's `publish_dashboard_update` is
a wrapper around `publish_message`). -/

/-- An externally visible action of one `process_message` run. -/
inductive Effect where
  | publish (topic : String) (payload : Json)
  | bqInsert (table : String) (rows : List Json)
  | llm (prompt : String)
  | gcsUpload (objectName : String) (content : String)

/-- Is this effect a publish to the fixed dashboard status topic? -/
def Effect.isStatusUpdate : Effect → Bool
  | .publish t _ => t == PUBSUB_TOPIC_DASHBOARD_UPDATES
  | _ => false

/-- Is this effect a publish to a topic other than the dashboard topic
(a workflow forward/trigger)? -/
def Effect.isForward : Effect → Bool
  | .publish t _ => t != PUBSUB_TOPIC_DASHBOARD_UPDATES
  | _ => false

/-- Is this effect a dashboard status update carrying `status = s`? -/
def Effect.isStatus (e : Effect) (s : String) : Bool :=
  match e with
  | .publish t p => t == PUBSUB_TOPIC_DASHBOARD_UPDATES
      && isStrVal (p.get? "status") s
  | _ => false

/-- Is this effect a warehouse insert (a persistence action)? -/
def Effect.isInsert : Effect → Bool
  | .bqInsert _ _ => true
  | _ => false

/-! ### Coordinator (src/agents/coordinator_agent/agent.py) -/

namespace CoordinatorAgent

/-- The `FAILED` dashboard payload the coordinator's error branches build:
`{"request_id": request_id, "status": "FAILED", "message": msg}`. -/
def failedPayload (request_id : Option Json) (msg : String) : Json :=
  .obj [("request_id", orNull request_id), ("status", .str "FAILED"),
        ("message", .str msg)]

/-- The `ROUTED` dashboard payload naming the target agent. -/
def routedPayload (request_id : Option Json) (agent msg : String) : Json :=
  .obj [("request_id", orNull request_id), ("status", .str "ROUTED"),
        ("agent", .str agent), ("message", .str msg)]

/-- `CoordinatorAgent.process_message`.  Each `raise ValueError` inside the
`try` lands in the `except ValueError` handler, which publishes the single
`FAILED` update built here.  A non-dict `payload` raises `AttributeError`
at `payload.get`, landing in `except Exception` with the same observable
shape (one `FAILED` update, no forward); that path is folded into the
`Json.get?`-is-`none` reading. -/
def process_message (message_data : Json) : List Effect :=
  let request_type := message_data.get? "request_type"
  let payload := (message_data.get? "payload").getD (.obj [])
  let request_id := message_data.get? "request_id"
  if !truthy? request_type then
    [.publish PUBSUB_TOPIC_DASHBOARD_UPDATES (failedPayload request_id
      "Missing request_type in coordinator request.")]
  else if isStrVal request_type "financial_metrics" then
    if !truthy? (payload.get? "ticker") then
      [.publish PUBSUB_TOPIC_DASHBOARD_UPDATES (failedPayload request_id
        "Coordinator: Invalid request payload: Financial metrics request requires 'ticker'.")]
    else
      [.publish PUBSUB_TOPIC_FINANCIAL_DATA_REQUESTS payload,
       .publish PUBSUB_TOPIC_DASHBOARD_UPDATES (routedPayload request_id
         "FinancialMetricsAgent"
         ("Request for financial metrics for " ++ pyStr? (payload.get? "ticker")
           ++ " routed."))]
  else if isStrVal request_type "numerical_summary" then
    if !truthy? (payload.get? "ticker") && !truthy? (payload.get? "insight_type") then
      [.publish PUBSUB_TOPIC_DASHBOARD_UPDATES (failedPayload request_id
        "Coordinator: Invalid request payload: Numerical summary request requires 'ticker' or 'insight_type'.")]
    else
      [.publish PUBSUB_TOPIC_NUMERICAL_SUMMARIES_REQUESTS payload,
       .publish PUBSUB_TOPIC_DASHBOARD_UPDATES (routedPayload request_id
         "NumericalSummarizerAgent"
         ("Request for numerical summary for " ++ pyStr? (payload.get? "ticker")
           ++ " routed."))]
  else if isStrVal request_type "generate_report" then
    if !truthy? (payload.get? "report_type")
        || !(truthy? (payload.get? "ticker") || truthy? (payload.get? "sector")) then
      [.publish PUBSUB_TOPIC_DASHBOARD_UPDATES (failedPayload request_id
        "Coordinator: Invalid request payload: Report generation request requires 'report_type' and 'ticker' or 'sector'.")]
    else
      [.publish PUBSUB_TOPIC_REPORT_GENERATION_REQUESTS payload,
       .publish PUBSUB_TOPIC_DASHBOARD_UPDATES (routedPayload request_id
         "ReportGeneratorAgent"
         ("Request for report '" ++ pyStr? (payload.get? "report_type")
           ++ "' routed."))]
  else
    [.publish PUBSUB_TOPIC_DASHBOARD_UPDATES (failedPayload request_id
      ("Coordinator: Unknown request_type: " ++ pyStr? request_type))]

/-- The per-type validation table of the coordinator, as a predicate on the
inbound message: a truthy `request_type` naming a known route whose payload
passes that route's required-field check. -/
def requestValid (message_data : Json) : Bool :=
  let request_type := message_data.get? "request_type"
  let payload := (message_data.get? "payload").getD (.obj [])
  truthy? request_type &&
    ((isStrVal request_type "financial_metrics"
        && truthy? (payload.get? "ticker"))
     || (isStrVal request_type "numerical_summary"
        && (truthy? (payload.get? "ticker") || truthy? (payload.get? "insight_type")))
     || (isStrVal request_type "generate_report"
        && truthy? (payload.get? "report_type")
        && (truthy? (payload.get? "ticker") || truthy? (payload.get? "sector"))))

/-- The dedicated downstream topic of a valid request's route. -/
def routeTopic (message_data : Json) : String :=
  if isStrVal (message_data.get? "request_type") "financial_metrics" then
    PUBSUB_TOPIC_FINANCIAL_DATA_REQUESTS
  else if isStrVal (message_data.get? "request_type") "numerical_summary" then
    PUBSUB_TOPIC_NUMERICAL_SUMMARIES_REQUESTS
  else
    PUBSUB_TOPIC_REPORT_GENERATION_REQUESTS

end CoordinatorAgent

/-- Invalid coordinator input used to witness C6: known route, empty payload. -/
def c6_msg : Json :=
  .obj [("request_type", .str "financial_metrics"), ("payload", .obj [])]

/-- Valid coordinator request with a top-level `request_id`, used for C2. -/
def c2_msg : Json :=
  .obj [("request_type", .str "financial_metrics"),
        ("payload", .obj [("ticker", .str "IBM")]),
        ("request_id", .str "r1")]

/-- Is this effect a publish to the named topic? -/
def Effect.isPublishTo (e : Effect) (topic : String) : Bool :=
  match e with
  | .publish t _ => t == topic
  | _ => false

/-! ### Financial Metrics Fetcher (src/agents/financial_metrics_agent/agent.py) -/

namespace FinancialMetricsAgent

/-- Collaborator outcomes for one run: the provider fetch
(`AlphaVantageProcessor.fetch_and_format_financial_metrics`, which may raise
or return the formatted record — `None` when no usable data) and the
warehouse insert (`BigQueryTool.insert_rows`, which may raise or report
success as a boolean). -/
structure Env where
  fetchOutcome : Except String (Option Json)
  insertOutcome : Except String Bool

/-- A `FAILED` dashboard payload as this agent builds it (with its
`agent` field). -/
def failedPayload (request_id : Option Json) (msg : String) : Json :=
  .obj [("request_id", orNull request_id), ("status", .str "FAILED"),
        ("agent", .str "FinancialMetricsAgent"), ("message", .str msg)]

/-- `FinancialMetricsAgent.process_message`: validate the ticker, fetch,
persist, and only on a successful insert publish the "data available"
trigger and the `COMPLETED` status. -/
def process_message (env : Env) (message_data : Json) : List Effect :=
  let ticker := message_data.get? "ticker"
  let request_id := message_data.get? "request_id"
  if !truthy? ticker then
    [.publish PUBSUB_TOPIC_DASHBOARD_UPDATES (failedPayload request_id
      "FinancialMetricsAgent: Missing 'ticker' in request payload.")]
  else
    match env.fetchOutcome with
    | .error e =>
        [.publish PUBSUB_TOPIC_DASHBOARD_UPDATES (failedPayload request_id
          ("FinancialMetricsAgent: An unexpected error occurred while processing "
            ++ pyStr? ticker ++ ": " ++ e))]
    | .ok fd? =>
        if truthy? fd? then
          let fd := orNull fd?
          .bqInsert BIGQUERY_TABLE_FINANCIAL_METRICS [fd] ::
          (match env.insertOutcome with
           | .ok true =>
              [.publish PUBSUB_TOPIC_FINANCIAL_DATA_AVAILABLE (.obj
                 [("ticker", orNull ticker),
                  ("data_type", .str "financial_metrics"),
                  ("date", orNull (fd.get? "date")),
                  ("request_id", orNull request_id)]),
               .publish PUBSUB_TOPIC_DASHBOARD_UPDATES (.obj
                 [("request_id", orNull request_id),
                  ("status", .str "COMPLETED"),
                  ("agent", .str "FinancialMetricsAgent"),
                  ("message", .str ("Financial metrics for " ++ pyStr? ticker
                    ++ " fetched and stored.")),
                  ("data_snapshot", .obj
                    [("current_price", orNull (fd.get? "current_price")),
                     ("day_change_percent", orNull (fd.get? "day_change_percent"))])])]
           | .ok false =>
              [.publish PUBSUB_TOPIC_DASHBOARD_UPDATES (failedPayload request_id
                ("FinancialMetricsAgent: Failed to store financial data for "
                  ++ pyStr? ticker ++ " in BigQuery."))]
           | .error e =>
              [.publish PUBSUB_TOPIC_DASHBOARD_UPDATES (failedPayload request_id
                ("FinancialMetricsAgent: An unexpected error occurred while processing "
                  ++ pyStr? ticker ++ ": " ++ e))])
        else
          [.publish PUBSUB_TOPIC_DASHBOARD_UPDATES (failedPayload request_id
            ("FinancialMetricsAgent: No financial data retrieved for "
              ++ pyStr? ticker ++ "."))]

end FinancialMetricsAgent

/-- Environment for the C5 witness: fetch succeeds, insert reports `False`. -/
def c5_env : FinancialMetricsAgent.Env :=
  ⟨Except.ok (some (Json.obj
     [("ticker", .str "IBM"), ("date", .str "2024-06-18"),
      ("current_price", .num 123), ("day_change_percent", .num 1)])),
   Except.ok false⟩

/-- Message for the C5 witness. -/
def c5_msg : Json := .obj [("ticker", .str "IBM"), ("request_id", .str "r5")]

/-- A proleptic Gregorian calendar date. -/
structure YMD where
  y : Nat
  m : Nat
  d : Nat

/-- Gregorian leap year. -/
def isLeap (y : Nat) : Bool := (y % 4 == 0 && y % 100 != 0) || y % 400 == 0

/-- Days in a month. -/
def daysInMonth (y m : Nat) : Nat :=
  if m == 2 then (if isLeap y then 29 else 28)
  else if m == 4 || m == 6 || m == 9 || m == 11 then 30 else 31

/-- `strptime(s, "%Y-%m-%d")` on a zero-padded ISO date: `none` models the
`ValueError` raised on any other input. -/
def parseYMD (s : String) : Option YMD :=
  match s.data with
  | [y1, y2, y3, y4, s1, m1, m2, s2, d1, d2] =>
    if y1.isDigit && y2.isDigit && y3.isDigit && y4.isDigit && (s1 == '-')
        && m1.isDigit && m2.isDigit && (s2 == '-') && d1.isDigit && d2.isDigit then
      let y := (y1.toNat - 48) * 1000 + (y2.toNat - 48) * 100
        + (y3.toNat - 48) * 10 + (y4.toNat - 48)
      let mo := (m1.toNat - 48) * 10 + (m2.toNat - 48)
      let dy := (d1.toNat - 48) * 10 + (d2.toNat - 48)
      if 1 ≤ mo ∧ mo ≤ 12 ∧ 1 ≤ dy ∧ dy ≤ daysInMonth y mo then
        some ⟨y, mo, dy⟩
      else none
    else none
  | _ => none

/-- Days since 1970-01-01 of a date (civil-from-days inverse). -/
def ymdToDays (dt : YMD) : Int :=
  let y : Int := if dt.m ≤ 2 then (dt.y : Int) - 1 else (dt.y : Int)
  let era : Int := (if 0 ≤ y then y else y - 399) / 400
  let yoe : Int := y - era * 400
  let mp : Int := ((dt.m : Int) + 9) % 12
  let doy : Int := (153 * mp + 2) / 5 + (dt.d : Int) - 1
  let doe : Int := yoe * 365 + yoe / 4 - yoe / 100 + doy
  era * 146097 + doe - 719468

/-- The date a number of days since 1970-01-01 falls on (civil from days). -/
def daysToYMD (z0 : Int) : YMD :=
  let z : Int := z0 + 719468
  let era : Int := (if 0 ≤ z then z else z - 146096) / 146097
  let doe : Int := z - era * 146097
  let yoe : Int := (doe - doe / 1460 + doe / 36524 - doe / 146096) / 365
  let doy : Int := doe - (365 * yoe + yoe / 4 - yoe / 100)
  let mp : Int := (5 * doy + 2) / 153
  let d : Int := doy - (153 * mp + 2) / 5 + 1
  let m : Int := if mp < 10 then mp + 3 else mp - 9
  let y : Int := yoe + era * 400 + (if m ≤ 2 then 1 else 0)
  ⟨y.toNat, m.toNat, d.toNat⟩

/-- Zero-padded two-digit rendering. -/
def pad2 (n : Nat) : String := if n < 10 then "0" ++ toString n else toString n

/-- Zero-padded four-digit rendering. -/
def pad4 (n : Nat) : String :=
  if n < 10 then "000" ++ toString n
  else if n < 100 then "00" ++ toString n
  else if n < 1000 then "0" ++ toString n
  else toString n

/-- `strftime("%Y-%m-%d")` / `date.isoformat()`. -/
def formatYMD (dt : YMD) : String := pad4 dt.y ++ "-" ++ pad2 dt.m ++ "-" ++ pad2 dt.d

/-! ### Insight Summarizer (src/agents/numerical_summarizer_agent/agent.py) -/

namespace NumericalSummarizerAgent

/-- Collaborator outcomes for one run.  `metricsResult` is what
`BigQueryTool.get_financial_metrics` returns (`query_data` catches its own
exceptions and returns `None`, never raises).  `geminiTrend` / `geminiVol`
are the two `GeminiTool.generate_text` results (that method catches every
exception and returns `None` or the text, never raises).  `insertOutcome`
is `insert_rows` (boolean result, or a raise).  `ts1`, `ts2` are the two
`get_current_ist_timestamp()` clock reads. -/
structure Env where
  metricsResult : Option (List Json)
  geminiTrend : Option String
  geminiVol : Option String
  insertOutcome : Except String Bool
  ts1 : String
  ts2 : String

/-- The dashboard payload this agent always builds:
`{request_id, status, agent, message}`. -/
def statusPayload (request_id : Option Json) (status msg : String) : Json :=
  .obj [("request_id", orNull request_id), ("status", .str status),
        ("agent", .str "NumericalSummarizerAgent"), ("message", .str msg)]

/-- `data[-7:] if len(data) >= 7 else data`. -/
def lastSeven (data : List Json) : List Json :=
  if data.length ≥ 7 then data.drop (data.length - 7) else data

/-- One line of the compact rendering sent to the model:
`Date: .., Close: .., Volume: .., Day Change: ..%`. -/
def dataLine (dp : Json) : String :=
  "Date: " ++ pyStr? (dp.get? "date") ++ ", Close: " ++ pyStr? (dp.get? "close")
    ++ ", Volume: " ++ pyStr? (dp.get? "volume") ++ ", Day Change: "
    ++ pyStr? (dp.get? "day_change_percent") ++ "%"

/-- The prompt `_generate_summary_with_gemini` submits (the triple-quoted
f-string; indentation whitespace is reproduced approximately, no claim
reads the prompt text). -/
def summaryPrompt (ticker : Option Json) (data : List Json)
    (insight_type : String) : String :=
  let data_string := String.intercalate "\n" ((lastSeven data).map dataLine)
  "\nAnalyze the following recent daily financial data for " ++ pyStr? ticker
    ++ " and provide a concise, insightful summary for an asset manager. "
    ++ "Focus on trends, significant movements, or stability observed in the "
    ++ "closing prices, volumes, and daily percentage changes.\n\n"
    ++ "Financial Data for " ++ pyStr? ticker ++ " (Last 7 days or available):\n"
    ++ data_string ++ "\n\nBased on this data, summarize the key observations "
    ++ "regarding " ++ pyStr? ticker ++ "'s recent performance (" ++ insight_type
    ++ "). Your summary should be 1-2 sentences.\n"

/-- The summary `_generate_summary_with_gemini` returns: the model text when
truthy, otherwise the literal fallback (`generate_text` never raises, so
the helper's `except` branch is dead code). -/
def summaryOrFallback (resp : Option String) : String :=
  match resp with
  | some s => if s != "" then s else "Failed to generate summary via Gemini."
  | none => "Failed to generate summary via Gemini."

/-- One numerical-insight row as `process_message` assembles it. -/
def insightRow (ticker : Option Json)
    (itype gdate stext smetrics ts : String) : Json :=
  .obj [("ticker", orNull ticker), ("insight_type", .str itype),
        ("generation_date", .str gdate), ("summary_text", .str stext),
        ("embedding_id", .null), ("source_metrics", .arr [.str smetrics]),
        ("ingestion_timestamp", .str ts)]

/-- `NumericalSummarizerAgent.process_message`.  Result `none` models an
exception escaping the handler: the only such point is `strptime` on a
missing/ill-formed `date`, which runs before the `try` (a non-string `date`
raises `TypeError` there the same way).  The `sum`/percent diagnostics of
lines 167-178 only feed `print` and are not modelled (on rows read back
from the typed warehouse they cannot raise).  The guard
`if numerical_insights_to_insert:` is statically true (the list always has
two elements) and is left implicit. -/
def process_message (env : Env) (message_data : Json) : Option (List Effect) :=
  let ticker := message_data.get? "ticker"
  let data_date := message_data.get? "date"
  let request_id := message_data.get? "request_id"
  if !truthy? ticker || !truthy? data_date then
    some []
  else
    match data_date with
    | some (Json.str ds) =>
      match parseYMD ds with
      | none => none
      | some endD =>
        let start_date_str := formatYMD (daysToYMD (ymdToDays endD - 30))
        let end_date_str := ds
        let inprog := Effect.publish PUBSUB_TOPIC_DASHBOARD_UPDATES
          (statusPayload request_id "IN_PROGRESS"
            ("Analyzing financial metrics for " ++ pyStr? ticker ++ " from "
              ++ start_date_str ++ " to " ++ end_date_str ++ "."))
        match env.metricsResult with
        | none =>
          some [inprog, Effect.publish PUBSUB_TOPIC_DASHBOARD_UPDATES
            (statusPayload request_id "SKIPPED"
              ("No data for " ++ pyStr? ticker ++ " to summarize."))]
        | some [] =>
          some [inprog, Effect.publish PUBSUB_TOPIC_DASHBOARD_UPDATES
            (statusPayload request_id "SKIPPED"
              ("No data for " ++ pyStr? ticker ++ " to summarize."))]
        | some financial_metrics@(_ :: _) =>
          let smetrics := "financial_metrics:" ++ pyStr? ticker ++ ":"
            ++ start_date_str ++ "_to_" ++ end_date_str
          let i1 := insightRow ticker "overall_price_trend" (formatYMD endD)
            (summaryOrFallback env.geminiTrend) smetrics env.ts1
          let i2 := insightRow ticker "volume_volatility_analysis" (formatYMD endD)
            (summaryOrFallback env.geminiVol) smetrics env.ts2
          some (inprog
            :: Effect.llm (summaryPrompt ticker financial_metrics
                 "Overall Price Trend")
            :: Effect.llm (summaryPrompt ticker financial_metrics
                 "Volume and Volatility")
            :: Effect.bqInsert BIGQUERY_TABLE_NUMERICAL_INSIGHTS [i1, i2]
            :: match env.insertOutcome with
               | .error e =>
                 [Effect.publish PUBSUB_TOPIC_DASHBOARD_UPDATES
                   (statusPayload request_id "FAILED"
                     ("NumericalSummarizerAgent: Error processing "
                       ++ pyStr? ticker ++ " for " ++ pyStr? data_date
                       ++ ": " ++ e))]
               | .ok _ =>
                 [Effect.publish PUBSUB_TOPIC_NUMERICAL_INSIGHTS_PROCESSED (.obj
                    [("ticker", orNull ticker), ("date", orNull data_date),
                     ("insights_count", .num (([i1, i2] : List Json).length : Int)),
                     ("request_id", orNull request_id)]),
                  Effect.publish PUBSUB_TOPIC_DASHBOARD_UPDATES
                    (statusPayload request_id "COMPLETED"
                      ("Numerical insights generated for " ++ pyStr? ticker
                        ++ " on " ++ pyStr? data_date ++ "."))])
    | _ => none

end NumericalSummarizerAgent

/-- Trigger message and environment for the C7 concrete run: valid ticker
and date, zero rows in the window. -/
def c7_msg : Json :=
  .obj [("ticker", .str "IBM"), ("date", .str "2024-06-18"),
        ("request_id", .str "r7")]

/-- Environment for the C7 concrete run. -/
def c7_env : NumericalSummarizerAgent.Env :=
  ⟨some [], some "t", some "v", Except.ok true, "ts1", "ts2"⟩

/-- The payload of a publish effect (for field inspection). -/
def Effect.payloadField? (e : Effect) (k : String) : Option Json :=
  match e with
  | .publish _ p => p.get? k
  | _ => none

/-- Python `x == n` for an integer literal. -/
def isNumVal (o : Option Json) (n : Int) : Bool :=
  match o with
  | some (.num x) => x == n
  | _ => false

/-- Trigger message for the C8 concrete run. -/
def c8_msg : Json :=
  .obj [("ticker", .str "IBM"), ("date", .str "2024-06-18"),
        ("request_id", .str "r8")]

/-- Environment for the C8 concrete run: one metric row in the window, both
model calls answer, the insert succeeds. -/
def c8_env : NumericalSummarizerAgent.Env :=
  ⟨some [Json.obj [("date", .str "2024-06-17"), ("close", .num 103),
     ("volume", .num 100000), ("day_change_percent", .num 3)]],
   some "Uptrend.", some "Stable volume.", Except.ok true, "ts1", "ts2"⟩

/-- Trigger message for the C10 concrete run. -/
def c10_msg : Json :=
  .obj [("ticker", .str "IBM"), ("date", .str "2024-06-18"),
        ("request_id", .str "r10")]

/-- Environment for the C10 concrete run: one metric row, insert reports
failure by returning `False` without raising. -/
def c10_env : NumericalSummarizerAgent.Env :=
  ⟨some [Json.obj [("date", .str "2024-06-17"), ("close", .num 103),
     ("volume", .num 100000), ("day_change_percent", .num 3)]],
   some "Uptrend.", some "Stable volume.", Except.ok false, "ts1", "ts2"⟩

/-- Metrics-fetch request and environment for the C10 contrast run: the
same `False` insert outcome at the Metrics Fetcher. -/
def c10_fin_msg : Json := .obj [("ticker", .str "IBM"), ("request_id", .str "r10f")]

/-- Environment for the C10 contrast run. -/
def c10_fin_env : FinancialMetricsAgent.Env :=
  ⟨Except.ok (some (Json.obj [("ticker", .str "IBM"),
     ("date", .str "2024-06-18"), ("current_price", .num 123),
     ("day_change_percent", .num 1)])), Except.ok false⟩

/-- The lowercase hex digit for `k < 16`. -/
def hexDigit (k : Nat) : Char :=
  if k < 10 then Char.ofNat (48 + k) else Char.ofNat (87 + k)

/-- A `\uXXXX` escape for a code unit `n < 0x10000`. -/
def uEscape (n : Nat) : List Char :=
  ['\\', 'u', hexDigit (n / 4096 % 16), hexDigit (n / 256 % 16),
   hexDigit (n / 16 % 16), hexDigit (n % 16)]

/-- One character as `json.dumps` (with `ensure_ascii=True`) emits it:
short escapes for the two specials and the five named controls, `\u00XX`
for other controls, the character itself when printable ASCII, `\uXXXX`
otherwise (a surrogate pair above the basic plane). -/
def escChar (c : Char) : List Char :=
  if c = '"' then ['\\', '"']
  else if c = '\\' then ['\\', '\\']
  else if c = Char.ofNat 8 then ['\\', 'b']
  else if c = Char.ofNat 9 then ['\\', 't']
  else if c = Char.ofNat 10 then ['\\', 'n']
  else if c = Char.ofNat 12 then ['\\', 'f']
  else if c = Char.ofNat 13 then ['\\', 'r']
  else if c.toNat < 32 then uEscape c.toNat
  else if c.toNat ≤ 126 then [c]
  else if c.toNat < 65536 then uEscape c.toNat
  else
    uEscape (55296 + (c.toNat - 65536) / 1024)
      ++ uEscape (56320 + (c.toNat - 65536) % 1024)

/-- A quoted, escaped JSON string literal. -/
def printStr (s : String) : List Char :=
  '"' :: (s.data.flatMap escChar ++ ['"'])

/-- The decimal digit character of `k % 10`. -/
def digitChar (k : Nat) : Char := Char.ofNat (48 + k % 10)

/-- Decimal digits of a natural number, most significant first; `fuel`
bounds the recursion depth (one unit per digit). -/
def natCharsAux : Nat → Nat → List Char
  | 0, _ => []
  | fuel + 1, n =>
      if n < 10 then [digitChar n]
      else natCharsAux fuel (n / 10) ++ [digitChar (n % 10)]

/-- Decimal digits of a natural number (`n + 1` units of fuel always
suffice). -/
def natChars (n : Nat) : List Char := natCharsAux (n + 1) n

/-- Decimal rendering of an integer. -/
def intChars (i : Int) : List Char :=
  (if i < 0 then ['-'] else []) ++ natChars i.natAbs

mutual
/-- `json.dumps` at character level. -/
def printJson : Json → List Char
  | .null => "null".data
  | .bool true => "true".data
  | .bool false => "false".data
  | .num n => intChars n
  | .str s => printStr s
  | .arr xs => '[' :: (printItems xs ++ [']'])
  | .obj kvs => '{' :: (printMembers kvs ++ ['}'])

/-- Array items joined by the default item separator `", "`. -/
def printItems : List Json → List Char
  | [] => []
  | [x] => printJson x
  | x :: xs => printJson x ++ ',' :: ' ' :: printItems xs

/-- Object members `key: value` joined by `", "`. -/
def printMembers : List (String × Json) → List Char
  | [] => []
  | [(k, v)] => printStr k ++ ':' :: ' ' :: printJson v
  | (k, v) :: kvs =>
      printStr k ++ ':' :: ' ' :: printJson v ++ ',' :: ' ' :: printMembers kvs
end


/-- `json.dumps(x)` as a string. -/
def jsonDumps (j : Json) : String := String.mk (printJson j)

/-- Is this effect a language-model call? -/
def Effect.isLlm : Effect → Bool
  | .llm _ => true
  | _ => false

/-- Is this effect an artifact write to the object store? -/
def Effect.isArtifactWrite : Effect → Bool
  | .gcsUpload _ _ => true
  | _ => false

/-! ### Report Generator (src/agents/report_generator_agent/agent.py and
report_templates.py) -/

def PROJECT_ID : String := "agenticassetmange-dataanalysis"

def GEMINI_MODEL_NAME : String := "gemini-1.5-flash"

def GCS_REPORTS_BUCKET : String := PROJECT_ID ++ "-generated-reports"

/-- `REPORT_TEMPLATES` of report_templates.py (the two registered
templates, their triple-quoted bodies with the indentation flattened to
single newlines; no claim reads the template text). -/
def REPORT_TEMPLATES : List (String × String) :=
  [("Executive Summary",
    "\nGenerate an executive summary for {ticker} based on the following financial data.\nFocus on key performance indicators, recent trends, and a concise outlook.\n\nFinancial Data:\n{financial_data}\n\nAdditional Parameters:\n{user_parameters}\n\nProvide a professional, concise summary suitable for an executive.\n"),
   ("Market Overview",
    "\nGenerate a concise market overview report based on general market trends.\nThis report does not focus on a single company but on broader market conditions.\n\nContext/Focus:\n{user_parameters}\n\nSummarize recent market movements, economic indicators, and potential implications for investors.\n")]

/-- `get_report_template`: `REPORT_TEMPLATES.get(report_type)` — `None`
for an unregistered type, and for any non-string key (`dict.get` never
raises). -/
def get_report_template (report_type : Option Json) : Option String :=
  match report_type with
  | some (.str s) => REPORT_TEMPLATES.lookup s
  | _ => none

namespace ReportGeneratorAgent

/-- Collaborator outcomes for one run: the generated uuid, today's date
(used when `report_date` is absent), the two clock reads taken when the
metadata dict is first built (lines 69 and 84 — the dict, timestamps
included, is reused for every later insert), the two warehouse query
results (`query_data` returns `None` on error, never raises), the model
text (`generate_text` never raises), and the artifact upload outcome.
`insert_rows` results are ignored by this agent, so they are not part of
the environment (a raising insert is not modelled). -/
structure Env where
  reportId : String
  today : YMD
  tsGen : String
  tsIngest : String
  finRows : Option (List Json)
  insightRows : Option (List Json)
  geminiResult : Option String
  gcsOutcome : Except String Unit

/-- One report-metadata row as `process_message` assembles it. -/
def reportMetadata (reportId : String) (report_type company_ticker : Option Json)
    (tsGen gcs_uri : String) (parameters : Json) (status tsIngest : String) : Json :=
  .obj [("report_id", .str reportId), ("report_type", orNull report_type),
        ("company_ticker", orNull company_ticker),
        ("generation_timestamp", .str tsGen), ("gcs_uri", .str gcs_uri),
        ("llm_model_used", .str GEMINI_MODEL_NAME),
        ("parameters_used", .str (jsonDumps parameters)),
        ("status", .str status), ("embedding_id", .null),
        ("ingestion_timestamp", .str tsIngest)]

/-- `company_ticker or 'N/A'` as the f-strings interpolate it. -/
def orNA (o : Option Json) : String := if truthy? o then pyStr? o else "N/A"

/-- `{x:.2f}` on a fetched field: integers of the modelled domain render
with a `.00` fraction; on `None` (or any non-number) the format spec
raises `TypeError`, modelled as the error case. -/
def fmt2f (o : Option Json) : Except String String :=
  match o with
  | some (.num n) => .ok (toString n ++ ".00")
  | _ => .error "unsupported format string passed to NoneType.__format__"

/-- `{x:,.0f}`: as `fmt2f` but with no fraction (the thousands-grouping
separators are not reproduced; no claim reads this text). -/
def fmtComma (o : Option Json) : Except String String :=
  match o with
  | some (.num n) => .ok (toString n)
  | _ => .error "unsupported format string passed to NoneType.__format__"

/-- The financial-data text block of step 2 (ticker present): built from
the most recent metric row when the query returned one, an explicit
"no data" text otherwise; the two format specs raise on non-numeric
fields. -/
def financialBlock (company_ticker : Option Json) (rows : Option (List Json)) :
    Except String String :=
  match rows with
  | some (latest :: _) =>
    if latest.truthy then
      match fmt2f (latest.get? "day_change_percent"),
          fmtComma (latest.get? "market_cap") with
      | .ok dc, .ok mc =>
        .ok ("Latest Financial Metrics for " ++ pyStr? company_ticker ++ " ("
          ++ pyStr? (latest.get? "date") ++ "):\n"
          ++ "- Current Price: " ++ pyStr? (latest.get? "current_price") ++ "\n"
          ++ "- Day Change: " ++ dc ++ "%\n"
          ++ "- Market Cap: " ++ mc ++ "\n"
          ++ "- PE Ratio: " ++ pyStr? (latest.get? "pe_ratio") ++ "\n")
      | .error e, _ => .error e
      | _, .error e => .error e
    else .ok ("No recent financial data found for " ++ pyStr? company_ticker ++ ".")
  | _ => .ok ("No recent financial data found for " ++ pyStr? company_ticker ++ ".")

/-- The numerical-insights text block of step 2 (ticker present). -/
def insightsBlock (company_ticker : Option Json) (rows : Option (List Json)) :
    String :=
  match rows with
  | some (r :: rs) =>
    "\nRecent Numerical Insights for " ++ pyStr? company_ticker ++ ":\n"
      ++ String.join ((r :: rs).map (fun i =>
        "- Type: " ++ pyStr? (i.get? "insight_type") ++ ", Date: "
          ++ pyStr? (i.get? "generation_date") ++ "\n  Summary: "
          ++ pyStr? (i.get? "summary_text") ++ "\n"))
  | _ => "\nNo recent numerical insights found for " ++ pyStr? company_ticker ++ "."

/-- `template.format(..)`: substitute the five named placeholders. -/
def renderTemplate (tpl tickerStr dateStr finB insB paramsStr : String) : String :=
  ((((tpl.replace "{ticker}" tickerStr).replace "{report_date}" dateStr).replace
    "{financial_data}" finB).replace "{numerical_insights}" insB).replace
    "{user_parameters}" paramsStr

/-- The `report_date` resolution at the top of `process_message`: a falsy
field means today; a well-formed string parses; anything else raises out
of the handler (`none`). -/
def resolveReportDate (env : Env) (message_data : Json) : Option (YMD × String) :=
  if !truthy? (message_data.get? "report_date") then
    some (env.today, formatYMD env.today)
  else
    match message_data.get? "report_date" with
    | some (Json.str s) =>
      match parseYMD s with
      | some d => some (d, s)
      | none => none
    | _ => none

/-- The `except` handler's tail: overwrite `status` with `FAILED` on the
same metadata dict (same report id, `gcs_uri` still empty — no modelled
failure point lies after the step-6 mutation), insert it, and publish the
`FAILED` status. -/
def tailFailed (env : Env) (report_type company_ticker request_id : Option Json)
    (parameters : Json) (e : String) : List Effect :=
  [.bqInsert BIGQUERY_TABLE_REPORT_METADATA
     [reportMetadata env.reportId report_type company_ticker env.tsGen ""
       parameters "FAILED" env.tsIngest],
   .publish PUBSUB_TOPIC_DASHBOARD_UPDATES (.obj
     [("request_id", orNull request_id), ("status", .str "FAILED"),
      ("agent", .str "ReportGeneratorAgent"),
      ("message", .str ("ReportGeneratorAgent: Error generating '"
        ++ pyStr? report_type ++ "' report for " ++ orNA company_ticker
        ++ " (ID: " ++ env.reportId ++ "): " ++ e))])]

/-- `ReportGeneratorAgent.process_message`.  Result `none` models an
exception escaping the handler: a truthy ill-formed or non-string
`report_date` raises at `strptime`, before any effect.  Note the code
validates nothing up front: the `IN_PROGRESS` metadata row and status go
out before the template lookup can fail. -/
def process_message (env : Env) (message_data : Json) : Option (List Effect) :=
  let report_type := message_data.get? "report_type"
  let company_ticker := message_data.get? "company_ticker"
  let request_id := message_data.get? "request_id"
  let parameters := (message_data.get? "parameters").getD (.obj [])
  match resolveReportDate env message_data with
  | none => none
  | some (_, report_date_str) =>
    some (
      .bqInsert BIGQUERY_TABLE_REPORT_METADATA
        [reportMetadata env.reportId report_type company_ticker env.tsGen ""
          parameters "IN_PROGRESS" env.tsIngest]
      :: .publish PUBSUB_TOPIC_DASHBOARD_UPDATES (.obj
          [("request_id", orNull request_id), ("status", .str "IN_PROGRESS"),
           ("agent", .str "ReportGeneratorAgent"),
           ("message", .str ("Generating '" ++ pyStr? report_type
             ++ "' report for " ++ orNA company_ticker ++ " (ID: "
             ++ env.reportId ++ ")."))])
      :: (match
            (if truthy? company_ticker then
              match financialBlock company_ticker env.finRows with
              | .ok finB => .ok (finB, insightsBlock company_ticker env.insightRows)
              | .error e => .error e
            else
              (.ok ("No specific company financial data requested for this report.",
                "No specific company numerical insights requested for this report.")
                : Except String (String × String))) with
          | .error e =>
            tailFailed env report_type company_ticker request_id parameters e
          | .ok (finB, insB) =>
            match get_report_template report_type with
            | none =>
              tailFailed env report_type company_ticker request_id parameters
                ("No template found for report type: " ++ pyStr? report_type)
            | some tpl =>
              let tickerStr :=
                if truthy? company_ticker then pyStr? company_ticker
                else "the entity"
              let full_prompt := renderTemplate tpl tickerStr report_date_str
                finB insB (jsonDumps parameters)
              Effect.llm full_prompt
              :: (match env.geminiResult with
                  | none =>
                    tailFailed env report_type company_ticker request_id
                      parameters "Gemini failed to generate report content."
                  | some content =>
                    if content == "" then
                      tailFailed env report_type company_ticker request_id
                        parameters "Gemini failed to generate report content."
                    else
                      Effect.gcsUpload ("reports/" ++ env.reportId ++ ".txt")
                        content
                      :: (match env.gcsOutcome with
                          | .error e =>
                            tailFailed env report_type company_ticker request_id
                              parameters e
                          | .ok _ =>
                            let gcs_uri := "gs://" ++ GCS_REPORTS_BUCKET
                              ++ "/reports/" ++ env.reportId ++ ".txt"
                            [.bqInsert BIGQUERY_TABLE_REPORT_METADATA
                               [reportMetadata env.reportId report_type
                                 company_ticker env.tsGen gcs_uri parameters
                                 "COMPLETED" env.tsIngest],
                             .publish PUBSUB_TOPIC_REPORT_GENERATION_COMPLETED
                               (.obj [("report_id", .str env.reportId),
                                 ("report_type", orNull report_type),
                                 ("company_ticker", orNull company_ticker),
                                 ("gcs_uri", .str gcs_uri),
                                 ("request_id", orNull request_id)]),
                             .publish PUBSUB_TOPIC_DASHBOARD_UPDATES (.obj
                               [("request_id", orNull request_id),
                                ("status", .str "COMPLETED"),
                                ("agent", .str "ReportGeneratorAgent"),
                                ("message", .str ("'" ++ pyStr? report_type
                                  ++ "' report for " ++ orNA company_ticker
                                  ++ " generated and available at " ++ gcs_uri
                                  ++ ".")),
                                ("report_id", .str env.reportId),
                                ("gcs_uri", .str gcs_uri)])]))))

end ReportGeneratorAgent

/-- Report request and environment for C9: a report type with no registered
template. -/
def c9_msg : Json :=
  .obj [("report_type", .str "Sector Analysis"), ("request_id", .str "r9")]

/-- Environment for the C9 concrete run. -/
def c9_env : ReportGeneratorAgent.Env :=
  ⟨"rid-9", ⟨2025, 1, 2⟩, "g-ts", "i-ts", none, none, some "text", Except.ok ()⟩

/-- The empty report request for the C4 concrete run (missing `report_type`,
`company_ticker`, and everything else). -/
def c4_msg : Json := .obj []

/-- Environment for the C4 concrete run. -/
def c4_env : ReportGeneratorAgent.Env :=
  ⟨"rid-4", ⟨2025, 1, 2⟩, "g-ts", "i-ts", none, none, some "text", Except.ok ()⟩

/-- The base64 alphabet character of a 6-bit group. -/
def b64Char (k : Nat) : Char :=
  if k < 26 then Char.ofNat (65 + k)
  else if k < 52 then Char.ofNat (97 + (k - 26))
  else if k < 62 then Char.ofNat (48 + (k - 52))
  else if k = 62 then '+'
  else '/'

/-- The 6-bit group of an alphabet character (`none` outside the
alphabet, `'='` included). -/
def b64Index? (c : Char) : Option Nat :=
  if 'A' ≤ c ∧ c ≤ 'Z' then some (c.toNat - 65)
  else if 'a' ≤ c ∧ c ≤ 'z' then some (c.toNat - 97 + 26)
  else if '0' ≤ c ∧ c ≤ '9' then some (c.toNat - 48 + 52)
  else if c = '+' then some 62
  else if c = '/' then some 63
  else none

/-- `base64.b64encode`: three bytes per four characters, `'='`-padded. -/
def b64Encode : List Nat → List Char
  | [] => []
  | [a] => [b64Char (a / 4), b64Char (a % 4 * 16), '=', '=']
  | [a, b] => [b64Char (a / 4), b64Char (a % 4 * 16 + b / 16),
               b64Char (b % 16 * 4), '=']
  | a :: b :: c :: rest =>
      b64Char (a / 4) :: b64Char (a % 4 * 16 + b / 16)
        :: b64Char (b % 16 * 4 + c / 64) :: b64Char (c % 64) :: b64Encode rest

/-- `base64.b64decode`: four characters per three bytes, padding only at
the very end. -/
def b64Decode : List Char → Option (List Nat)
  | [] => some []
  | c1 :: c2 :: c3 :: c4 :: rest =>
    match b64Index? c1, b64Index? c2 with
    | some i1, some i2 =>
      if c3 = '=' then
        if c4 = '=' ∧ rest = [] then some [i1 * 4 + i2 / 16] else none
      else
        match b64Index? c3 with
        | some i3 =>
          if c4 = '=' then
            if rest = [] then some [i1 * 4 + i2 / 16, i2 % 16 * 16 + i3 / 4]
            else none
          else
            match b64Index? c4 with
            | some i4 =>
              (b64Decode rest).map (fun tl =>
                (i1 * 4 + i2 / 16) :: (i2 % 16 * 16 + i3 / 4)
                  :: (i3 % 4 * 64 + i4) :: tl)
            | none => none
        | none => none
    | _, _ => none
  | _ => none

/-- The UTF-8 bytes of one unicode scalar value. -/
def utf8EncodeChar (c : Char) : List Nat :=
  let n := c.toNat
  if n < 128 then [n]
  else if n < 2048 then [192 + n / 64, 128 + n % 64]
  else if n < 65536 then [224 + n / 4096, 128 + n / 64 % 64, 128 + n % 64]
  else [240 + n / 262144, 128 + n / 4096 % 64, 128 + n / 64 % 64, 128 + n % 64]

/-- `str.encode('utf-8')`. -/
def utf8Encode (s : String) : List Nat := s.data.flatMap utf8EncodeChar

/-- Decode one UTF-8 sequence from the front of a byte list: strict —
bad lead or continuation bytes, overlong forms, surrogates and
out-of-range values are rejected (`none`), as Python's strict
`bytes.decode('utf-8')` raises `UnicodeDecodeError`. -/
def utf8DecodeStep : List Nat → Option (Char × List Nat)
  | [] => none
  | b :: bs =>
    if b < 128 then some (Char.ofNat b, bs)
    else if b < 194 then none
    else if b < 224 then
      match bs with
      | b1 :: bs' =>
        if 128 ≤ b1 ∧ b1 < 192 then
          some (Char.ofNat ((b - 192) * 64 + (b1 - 128)), bs')
        else none
      | _ => none
    else if b < 240 then
      match bs with
      | b1 :: b2 :: bs' =>
        if 128 ≤ b1 ∧ b1 < 192 ∧ 128 ≤ b2 ∧ b2 < 192 then
          let n := (b - 224) * 4096 + (b1 - 128) * 64 + (b2 - 128)
          if 2048 ≤ n ∧ ¬(55296 ≤ n ∧ n < 57344) then
            some (Char.ofNat n, bs')
          else none
        else none
      | _ => none
    else if b < 245 then
      match bs with
      | b1 :: b2 :: b3 :: bs' =>
        if 128 ≤ b1 ∧ b1 < 192 ∧ 128 ≤ b2 ∧ b2 < 192 ∧ 128 ≤ b3 ∧ b3 < 192 then
          let n := (b - 240) * 262144 + (b1 - 128) * 4096
            + (b2 - 128) * 64 + (b3 - 128)
          if 65536 ≤ n ∧ n < 1114112 then
            some (Char.ofNat n, bs')
          else none
        else none
      | _ => none
    else none

/-- Decode a whole byte list, one scalar per step; `fuel` bounds the number
of scalars (each step consumes at least one byte, so the list's length
suffices). -/
def utf8DecodeAux : Nat → List Nat → Option (List Char)
  | _, [] => some []
  | 0, _ :: _ => none
  | fuel + 1, b :: bs =>
    match utf8DecodeStep (b :: bs) with
    | some (c, rest) => (utf8DecodeAux fuel rest).map (c :: ·)
    | none => none

/-- `bytes.decode('utf-8')`, strict. -/
def utf8Decode (bs : List Nat) : Option (List Char) :=
  utf8DecodeAux bs.length bs

/-- JSON whitespace. -/
def isWsChar (c : Char) : Bool := c == ' ' || c == '\t' || c == '\n' || c == '\r'

/-- Drop leading JSON whitespace. -/
def dropWs : List Char → List Char
  | c :: cs => if isWsChar c then dropWs cs else c :: cs
  | [] => []

/-- Decimal digit? -/
def isDec (c : Char) : Bool := '0' ≤ c && c ≤ '9'

/-- Split off the longest leading run of decimal digits. -/
def spanDigits : List Char → List Char × List Char
  | c :: cs =>
    if isDec c then
      let (ds, rest) := spanDigits cs
      (c :: ds, rest)
    else ([], c :: cs)
  | [] => ([], [])

/-- The number a digit run denotes. -/
def digitsVal (ds : List Char) : Nat :=
  ds.foldl (fun a c => a * 10 + (c.toNat - 48)) 0

/-- The value of one hex digit (either case). -/
def hexVal? (c : Char) : Option Nat :=
  if '0' ≤ c ∧ c ≤ '9' then some (c.toNat - 48)
  else if 'a' ≤ c ∧ c ≤ 'f' then some (c.toNat - 87)
  else if 'A' ≤ c ∧ c ≤ 'F' then some (c.toNat - 55)
  else none

/-- The value of a four-hex-digit escape body. -/
def hex4? (a b c d : Char) : Option Nat :=
  match hexVal? a, hexVal? b, hexVal? c, hexVal? d with
  | some va, some vb, some vc, some vd => some (((va * 16 + vb) * 16 + vc) * 16 + vd)
  | _, _, _, _ => none

/-- The character a short escape denotes. -/
def shortEscape? : Char → Option Char
  | '"' => some '"'
  | '\\' => some '\\'
  | '/' => some '/'
  | 'b' => some (Char.ofNat 8)
  | 'f' => some (Char.ofNat 12)
  | 'n' => some (Char.ofNat 10)
  | 'r' => some (Char.ofNat 13)
  | 't' => some (Char.ofNat 9)
  | _ => none

/-- Parse a string body up to the closing quote: short escapes, `\uXXXX`
(surrogate pairs combined, lone surrogates rejected — Python tolerates a
lone surrogate inside `str`, which the modelled `Char` cannot carry), raw
characters above the control range. -/
def parseStrChars : List Char → Option (List Char × List Char)
  | '"' :: rest => some ([], rest)
  | '\\' :: 'u' :: a :: b :: c :: d :: rest =>
    match hex4? a b c d with
    | none => none
    | some n =>
      if 55296 ≤ n ∧ n < 56320 then
        match rest with
        | '\\' :: 'u' :: a2 :: b2 :: c2 :: d2 :: rest2 =>
          match hex4? a2 b2 c2 d2 with
          | some m =>
            if 56320 ≤ m ∧ m < 57344 then
              (parseStrChars rest2).map (fun p =>
                (Char.ofNat (65536 + (n - 55296) * 1024 + (m - 56320)) :: p.1, p.2))
            else none
          | none => none
        | _ => none
      else if 56320 ≤ n ∧ n < 57344 then none
      else (parseStrChars rest).map (fun p => (Char.ofNat n :: p.1, p.2))
  | '\\' :: e :: rest =>
    match shortEscape? e with
    | some ch => (parseStrChars rest).map (fun p => (ch :: p.1, p.2))
    | none => none
  | c :: rest =>
    if c.toNat < 32 then none
    else (parseStrChars rest).map (fun p => (c :: p.1, p.2))
  | [] => none

/-- Parse an unsigned JSON integer: a digit run with no redundant leading
zero and no following fraction/exponent (which would denote a float). -/
def parseNatPart (cs : List Char) : Option (Nat × List Char) :=
  match spanDigits cs with
  | ([], _) => none
  | (d :: ds, rest) =>
    if d = '0' ∧ ds ≠ [] then none
    else
      match rest with
      | c :: _ =>
        if c = '.' ∨ c = 'e' ∨ c = 'E' then none
        else some (digitsVal (d :: ds), rest)
      | [] => some (digitsVal (d :: ds), [])

/-- Parse a JSON integer with optional sign. -/
def parseIntNum : List Char → Option (Int × List Char)
  | [] => none
  | c :: rest =>
    if c = '-' then
      match parseNatPart rest with
      | some (n, r) => some (-(n : Int), r)
      | none => none
    else
      match parseNatPart (c :: rest) with
      | some (n, r) => some ((n : Int), r)
      | none => none

mutual
/-- Parse one JSON value (`fuel` bounds recursion; the document length
suffices). -/
def parseVal : Nat → List Char → Option (Json × List Char)
  | 0, _ => none
  | fuel + 1, cs =>
    match dropWs cs with
    | 'n' :: 'u' :: 'l' :: 'l' :: r => some (.null, r)
    | 't' :: 'r' :: 'u' :: 'e' :: r => some (.bool true, r)
    | 'f' :: 'a' :: 'l' :: 's' :: 'e' :: r => some (.bool false, r)
    | '"' :: r =>
      (parseStrChars r).map (fun p => (.str (String.mk p.1), p.2))
    | '[' :: r =>
      (match dropWs r with
       | [] => none
       | c :: r' =>
         if c = ']' then some (.arr [], r')
         else (parseItems fuel (c :: r')).map (fun p => (.arr p.1, p.2)))
    | '{' :: r =>
      (match dropWs r with
       | [] => none
       | c :: r' =>
         if c = '}' then some (.obj [], r')
         else (parseMembers fuel (c :: r')).map (fun p => (.obj p.1, p.2)))
    | c :: r =>
      if c = '-' ∨ isDec c then
        match parseIntNum (c :: r) with
        | some (n, r') => some (.num n, r')
        | none => none
      else none
    | [] => none

/-- Parse one-or-more comma-separated array items up to the closing
bracket. -/
def parseItems : Nat → List Char → Option (List Json × List Char)
  | 0, _ => none
  | fuel + 1, cs =>
    match parseVal fuel cs with
    | none => none
    | some (v, r) =>
      match dropWs r with
      | ',' :: r' => (parseItems fuel r').map (fun p => (v :: p.1, p.2))
      | ']' :: r' => some ([v], r')
      | _ => none

/-- Parse one-or-more comma-separated `key: value` members up to the
closing brace. -/
def parseMembers : Nat → List Char → Option (List (String × Json) × List Char)
  | 0, _ => none
  | fuel + 1, cs =>
    match dropWs cs with
    | '"' :: r =>
      (match parseStrChars r with
       | none => none
       | some (kcs, r1) =>
         match dropWs r1 with
         | ':' :: r2 =>
           (match parseVal fuel r2 with
            | none => none
            | some (v, r3) =>
              match dropWs r3 with
              | ',' :: r4 =>
                (parseMembers fuel r4).map (fun p =>
                  ((String.mk kcs, v) :: p.1, p.2))
              | '}' :: r4 => some ([(String.mk kcs, v)], r4)
              | _ => none)
         | _ => none)
    | _ => none
end


/-- `json.loads`: parse a complete document, allowing trailing whitespace
only. -/
def jsonLoads (s : String) : Option Json :=
  match parseVal (s.data.length + 1) s.data with
  | some (j, r) => if dropWs r = [] then some j else none
  | none => none

/-- Rest lists the number parser must stop at: empty, or headed by a
character that extends neither a digit run nor a float form. -/
def numDelim : List Char → Bool
  | [] => true
  | c :: _ => !(isDec c || c = '.' || c = 'e' || c = 'E')

/- ### The HTTP boundary (src/common/adk_base.py)

`handle_pubsub_message` receives a Pub/Sub push envelope.  It is modelled
on the JSON level: `body` is the parsed HTTP body (`request.get_json()`,
`none` when the request carries no parseable JSON), and `proc` stands for
the subclass hook `process_message`, returning an error when the hook
raises.  The model returns the HTTP status code paired with the payload
handed to `proc` (`none` when `proc` was never invoked).  Every exception
raised inside the handler body is caught by its `except` arms, both of
which answer status 400 (lines 70-75). -/

/-- Lines 48-56: the inbound data decoding path — base64-decode the `data`
string, UTF-8-decode the bytes, parse the JSON text.  Each stage is
modelled strictly; a `none` stands for the exception the corresponding
Python call raises. -/
def decodeDataField (data : List Char) : Option Json :=
  match b64Decode data with
  | none => none
  | some bytes =>
    match utf8Decode bytes with
    | none => none
    | some chars => jsonLoads (String.mk chars)

/-- The outbound path composed with the broker transport wrap:
`publish_message` (lines 84-99) JSON-encodes the payload and UTF-8-encodes
the text; the push subscription then delivers those bytes base64-encoded
in the envelope's `data` field, where `decodeDataField` picks them up. -/
def encodeForPush (payload : Json) : List Char :=
  b64Encode (utf8Encode (jsonDumps payload))

/-- Does the second list start with the first? (helper for the Python
substring test) -/
def leadsWith : List Char → List Char → Bool
  | [], _ => true
  | _ :: _, [] => false
  | a :: as, b :: bs => a == b && leadsWith as bs

/-- Python `needle in hay` on strings: substring containment. -/
def containsRun (needle : List Char) : List Char → Bool
  | [] => needle.isEmpty
  | c :: cs => leadsWith needle (c :: cs) || containsRun needle cs

/-- Lines 64-75: run the subclass hook on the decoded payload; a normal
return is acknowledged with 200, an exception falls through to the
`except` arms and is answered with 400. -/
def runProcess (proc : Json → Except String Unit) (payload : Json) :
    Nat × Option Json :=
  match proc payload with
  | .ok _ => (200, some payload)
  | .error _ => (400, some payload)

/-- `ADKBaseAgent.handle_pubsub_message` (lines 31-75).  The checks mirror
the source: a missing or falsy body and a non-dict or `message`-less
envelope are rejected with 400; a `data` member must be a string
(otherwise `base64.b64decode` raises); a dict `message` without `data`
processes the empty dict; the membership test `"data" in pubsub_message`
is a key test for dicts, a substring or element test for strings and
lists (whose subsequent `["data"]` subscript raises `TypeError`), and
raises `TypeError` for the remaining shapes — every raise is answered
with 400. -/
def handle_pubsub_message (body : Option Json)
    (proc : Json → Except String Unit) : Nat × Option Json :=
  match body with
  | none => (400, none)
  | some envelope =>
    if envelope.truthy = false then (400, none)
    else
      match envelope.get? "message" with
      | none => (400, none)
      | some msg =>
        match msg with
        | .obj mkvs =>
          match Json.get? (.obj mkvs) "data" with
          | some (.str ds) =>
            (match decodeDataField ds.data with
             | none => (400, none)
             | some payload => runProcess proc payload)
          | some _ => (400, none)
          | none => runProcess proc (.obj [])
        | .str s =>
          if containsRun "data".data s.data then (400, none)
          else runProcess proc (.obj [])
        | .arr xs =>
          if xs.any (fun x => isStrVal (some x) "data") then (400, none)
          else runProcess proc (.obj [])
        | _ => (400, none)

/-- C1 example input: a well-formed push envelope whose `data` field is
the base64 encoding of the UTF-8 bytes of the empty-object JSON text. -/
def c1_body : Json :=
  .obj [("message", .obj [("data", .str "e30=")])]


/- ## Theorems

All definitions above are closed; everything below is proved about them. -/



/-! ### Coordinator claims -/

/-- C6: an input with missing/unknown `request_type`, or whose payload fails
the route's required-field validation, yields exactly one dashboard status
update, that update is `FAILED`, and nothing is forwarded to any downstream
topic. -/
theorem coordinator_invalid_single_failed_no_forward (m : Json)
    (h : CoordinatorAgent.requestValid m = false) :
    ((CoordinatorAgent.process_message m).filter
        (fun e => e.isStatus "FAILED")).length = 1
    ∧ (CoordinatorAgent.process_message m).filter Effect.isForward = []
    ∧ ((CoordinatorAgent.process_message m).filter
        Effect.isStatusUpdate).length = 1 := by
  unfold CoordinatorAgent.requestValid at h
  by_cases h1 : truthy? (m.get? "request_type") = true
  · by_cases h2 : isStrVal (m.get? "request_type") "financial_metrics" = true
    · simp only [h1, h2, Bool.true_and, Bool.or_eq_false_iff] at h
      have hred : CoordinatorAgent.process_message m
          = [Effect.publish PUBSUB_TOPIC_DASHBOARD_UPDATES
              (CoordinatorAgent.failedPayload (m.get? "request_id")
                "Coordinator: Invalid request payload: Financial metrics request requires 'ticker'.")] := by
        simp [CoordinatorAgent.process_message, h1, h2, h.1.1]
      rw [hred]
      simp [Effect.isStatus, Effect.isForward, Effect.isStatusUpdate,
        CoordinatorAgent.failedPayload, isStrVal, Json.get?, List.filter,
        List.lookup, PUBSUB_TOPIC_DASHBOARD_UPDATES]
    · simp only [Bool.not_eq_true] at h2
      by_cases h3 : isStrVal (m.get? "request_type") "numerical_summary" = true
      · simp only [h1, h2, h3, Bool.true_and, Bool.false_and, Bool.false_or,
          Bool.or_eq_false_iff] at h
        have hred : CoordinatorAgent.process_message m
            = [Effect.publish PUBSUB_TOPIC_DASHBOARD_UPDATES
                (CoordinatorAgent.failedPayload (m.get? "request_id")
                  "Coordinator: Invalid request payload: Numerical summary request requires 'ticker' or 'insight_type'.")] := by
          simp [CoordinatorAgent.process_message, h1, h2, h3, h.1.1, h.1.2]
        rw [hred]
        simp [Effect.isStatus, Effect.isForward, Effect.isStatusUpdate,
          CoordinatorAgent.failedPayload, isStrVal, Json.get?, List.filter,
          List.lookup, PUBSUB_TOPIC_DASHBOARD_UPDATES]
      · simp only [Bool.not_eq_true] at h3
        by_cases h4 : isStrVal (m.get? "request_type") "generate_report" = true
        · simp only [h1, h2, h3, h4, Bool.true_and, Bool.false_and,
            Bool.false_or] at h
          have hred : CoordinatorAgent.process_message m
              = [Effect.publish PUBSUB_TOPIC_DASHBOARD_UPDATES
                  (CoordinatorAgent.failedPayload (m.get? "request_id")
                    "Coordinator: Invalid request payload: Report generation request requires 'report_type' and 'ticker' or 'sector'.")] := by
            rcases Bool.and_eq_false_iff.mp h with h5 | h5
            · simp [CoordinatorAgent.process_message, h1, h2, h3, h4, h5]
            · obtain ⟨hta, hsa⟩ := Bool.or_eq_false_iff.mp h5
              simp [CoordinatorAgent.process_message, h1, h2, h3, h4, hta, hsa]
          rw [hred]
          simp [Effect.isStatus, Effect.isForward, Effect.isStatusUpdate,
            CoordinatorAgent.failedPayload, isStrVal, Json.get?, List.filter,
            List.lookup, PUBSUB_TOPIC_DASHBOARD_UPDATES]
        · simp only [Bool.not_eq_true] at h4
          have hred : CoordinatorAgent.process_message m
              = [Effect.publish PUBSUB_TOPIC_DASHBOARD_UPDATES
                  (CoordinatorAgent.failedPayload (m.get? "request_id")
                    ("Coordinator: Unknown request_type: "
                      ++ pyStr? (m.get? "request_type")))] := by
            simp [CoordinatorAgent.process_message, h1, h2, h3, h4]
          rw [hred]
          simp [Effect.isStatus, Effect.isForward, Effect.isStatusUpdate,
            CoordinatorAgent.failedPayload, isStrVal, Json.get?, List.filter,
            List.lookup, PUBSUB_TOPIC_DASHBOARD_UPDATES]
  · simp only [Bool.not_eq_true] at h1
    have hred : CoordinatorAgent.process_message m
        = [Effect.publish PUBSUB_TOPIC_DASHBOARD_UPDATES
            (CoordinatorAgent.failedPayload (m.get? "request_id")
              "Missing request_type in coordinator request.")] := by
      simp [CoordinatorAgent.process_message, h1]
    rw [hred]
    simp [Effect.isStatus, Effect.isForward, Effect.isStatusUpdate,
      CoordinatorAgent.failedPayload, isStrVal, Json.get?, List.filter,
      List.lookup, PUBSUB_TOPIC_DASHBOARD_UPDATES]

/-- C6 witness: the theorem applied at the concrete invalid request. -/
theorem coordinator_invalid_single_failed_no_forward_witness :
    CoordinatorAgent.requestValid c6_msg = false
    ∧ (((CoordinatorAgent.process_message c6_msg).filter
          (fun e => e.isStatus "FAILED")).length = 1
        ∧ (CoordinatorAgent.process_message c6_msg).filter Effect.isForward = []
        ∧ ((CoordinatorAgent.process_message c6_msg).filter
            Effect.isStatusUpdate).length = 1) :=
  ⟨rfl, coordinator_invalid_single_failed_no_forward c6_msg rfl⟩

/-- A value that compares equal to string `a` compares to any string `b`
exactly as `a` does. -/
theorem isStrVal_unique {o : Option Json} {a : String}
    (h : isStrVal o a = true) (b : String) : isStrVal o b = (a == b) := by
  rcases o with _ | v
  · cases h
  · cases v <;> simp_all [isStrVal]

/-- C2 (amended): a valid request is routed with the request's `payload`
sub-object forwarded unchanged as the whole message, followed by one
`ROUTED` status update that carries the `request_id`; the `request_id` is
not copied into the forwarded message itself. -/
theorem coordinator_forwards_payload_unchanged (m : Json)
    (h : CoordinatorAgent.requestValid m = true) :
    ∃ routed,
      CoordinatorAgent.process_message m
        = [Effect.publish (CoordinatorAgent.routeTopic m)
            ((m.get? "payload").getD (Json.obj [])),
           Effect.publish PUBSUB_TOPIC_DASHBOARD_UPDATES routed]
      ∧ isStrVal (routed.get? "status") "ROUTED" = true
      ∧ routed.get? "request_id" = some (orNull (m.get? "request_id")) := by
  unfold CoordinatorAgent.requestValid at h
  simp only [Bool.and_eq_true, Bool.or_eq_true] at h
  obtain ⟨h1, h2⟩ := h
  rcases h2 with (⟨hrt, htick⟩ | ⟨hrt, hts⟩) | ⟨⟨hrt, hrep⟩, hts⟩
  · refine ⟨CoordinatorAgent.routedPayload (m.get? "request_id")
      "FinancialMetricsAgent"
      ("Request for financial metrics for "
        ++ pyStr? (((m.get? "payload").getD (Json.obj [])).get? "ticker")
        ++ " routed."), ?_, rfl, rfl⟩
    simp [CoordinatorAgent.process_message, CoordinatorAgent.routeTopic, h1,
      hrt, htick]
  · refine ⟨CoordinatorAgent.routedPayload (m.get? "request_id")
      "NumericalSummarizerAgent"
      ("Request for numerical summary for "
        ++ pyStr? (((m.get? "payload").getD (Json.obj [])).get? "ticker")
        ++ " routed."), ?_, rfl, rfl⟩
    have hfin := isStrVal_unique hrt "financial_metrics"
    rcases hts with hts | hts <;>
      simp [CoordinatorAgent.process_message, CoordinatorAgent.routeTopic, h1,
        hrt, hts, hfin]
  · refine ⟨CoordinatorAgent.routedPayload (m.get? "request_id")
      "ReportGeneratorAgent"
      ("Request for report '"
        ++ pyStr? (((m.get? "payload").getD (Json.obj [])).get? "report_type")
        ++ "' routed."), ?_, rfl, rfl⟩
    have hfin := isStrVal_unique hrt "financial_metrics"
    have hnum := isStrVal_unique hrt "numerical_summary"
    rcases hts with hts | hts <;>
      simp [CoordinatorAgent.process_message, CoordinatorAgent.routeTopic, h1,
        hrt, hrep, hts, hfin, hnum]

/-- C2 witness: the amended theorem applied at the concrete valid request. -/
theorem coordinator_forwards_payload_unchanged_witness :
    CoordinatorAgent.requestValid c2_msg = true
    ∧ ∃ routed,
      CoordinatorAgent.process_message c2_msg
        = [Effect.publish (CoordinatorAgent.routeTopic c2_msg)
            ((c2_msg.get? "payload").getD (Json.obj [])),
           Effect.publish PUBSUB_TOPIC_DASHBOARD_UPDATES routed]
      ∧ isStrVal (routed.get? "status") "ROUTED" = true
      ∧ routed.get? "request_id" = some (orNull (c2_msg.get? "request_id")) :=
  ⟨rfl, coordinator_forwards_payload_unchanged c2_msg rfl⟩

/-- C2 counterexample: for the request `c2_msg` the message published to the
route's dedicated topic is the `payload` sub-object, which is not the
inbound request and does not carry the request's correlation id: the claim
that the forwarded message is the inbound request (with its `request_id`)
unchanged fails here. -/
theorem coordinator_request_id_dropped_counterexample :
    ∃ fwd rest,
      CoordinatorAgent.process_message c2_msg
        = Effect.publish PUBSUB_TOPIC_FINANCIAL_DATA_REQUESTS fwd :: rest
      ∧ fwd.get? "request_id" = none
      ∧ c2_msg.get? "request_id" = some (.str "r1")
      ∧ fwd ≠ c2_msg := by
  refine ⟨.obj [("ticker", .str "IBM")], _, rfl, rfl, rfl, ?_⟩
  intro hEq
  have hids : (Json.obj [("ticker", Json.str "IBM")]).get? "request_id"
      = c2_msg.get? "request_id" := by rw [hEq]
  rw [show c2_msg.get? "request_id" = some (.str "r1") from rfl] at hids
  cases hids


/-! ### Financial Metrics claims -/

/-- C5: the "data available" trigger is published only after a successful
persist.  When persistence does not succeed (a `False` return or a raise
from `insert_rows`), no trigger is published, no `COMPLETED` status is
published, and exactly one `FAILED` status is; and any trigger in the trace
implies the insert succeeded and stands immediately after the persist
effect. -/
theorem metrics_no_trigger_without_persistence (env : FinancialMetricsAgent.Env)
    (m : Json) :
    (env.insertOutcome ≠ Except.ok true →
      (FinancialMetricsAgent.process_message env m).filter
          (fun e => e.isPublishTo PUBSUB_TOPIC_FINANCIAL_DATA_AVAILABLE) = []
      ∧ ((FinancialMetricsAgent.process_message env m).filter
          (fun e => e.isStatus "FAILED")).length = 1
      ∧ (FinancialMetricsAgent.process_message env m).filter
          (fun e => e.isStatus "COMPLETED") = [])
    ∧ (∀ p, Effect.publish PUBSUB_TOPIC_FINANCIAL_DATA_AVAILABLE p
          ∈ FinancialMetricsAgent.process_message env m →
        env.insertOutcome = Except.ok true
        ∧ ∃ fd rest, FinancialMetricsAgent.process_message env m
            = Effect.bqInsert BIGQUERY_TABLE_FINANCIAL_METRICS [fd]
              :: Effect.publish PUBSUB_TOPIC_FINANCIAL_DATA_AVAILABLE p
              :: rest) := by
  constructor
  · intro h
    by_cases h1 : truthy? (m.get? "ticker") = true
    · rcases hf : env.fetchOutcome with e | fd?
      · simp only [FinancialMetricsAgent.process_message, h1, hf]
        simp [FinancialMetricsAgent.failedPayload, Effect.isPublishTo,
          Effect.isStatus, isStrVal, Json.get?, List.filter, List.lookup,
          PUBSUB_TOPIC_DASHBOARD_UPDATES, PUBSUB_TOPIC_FINANCIAL_DATA_AVAILABLE]
      · by_cases h2 : truthy? fd? = true
        · rcases hi : env.insertOutcome with e | b
          · simp only [FinancialMetricsAgent.process_message, h1, hf, h2, hi]
            simp [FinancialMetricsAgent.failedPayload, Effect.isPublishTo,
              Effect.isStatus, isStrVal, Json.get?, List.filter, List.lookup,
              PUBSUB_TOPIC_DASHBOARD_UPDATES, PUBSUB_TOPIC_FINANCIAL_DATA_AVAILABLE]
          · cases b
            · simp only [FinancialMetricsAgent.process_message, h1, hf, h2, hi]
              simp [FinancialMetricsAgent.failedPayload, Effect.isPublishTo,
                Effect.isStatus, isStrVal, Json.get?, List.filter, List.lookup,
                PUBSUB_TOPIC_DASHBOARD_UPDATES,
                PUBSUB_TOPIC_FINANCIAL_DATA_AVAILABLE]
            · exact absurd hi h
        · simp only [Bool.not_eq_true] at h2
          simp only [FinancialMetricsAgent.process_message, h1, hf, h2]
          simp [FinancialMetricsAgent.failedPayload, Effect.isPublishTo,
            Effect.isStatus, isStrVal, Json.get?, List.filter, List.lookup,
            PUBSUB_TOPIC_DASHBOARD_UPDATES, PUBSUB_TOPIC_FINANCIAL_DATA_AVAILABLE]
    · simp only [Bool.not_eq_true] at h1
      simp only [FinancialMetricsAgent.process_message, h1]
      simp [FinancialMetricsAgent.failedPayload, Effect.isPublishTo,
        Effect.isStatus, isStrVal, Json.get?, List.filter, List.lookup,
        PUBSUB_TOPIC_DASHBOARD_UPDATES, PUBSUB_TOPIC_FINANCIAL_DATA_AVAILABLE]
  · intro p hp
    by_cases h1 : truthy? (m.get? "ticker") = true
    · rcases hf : env.fetchOutcome with e | fd?
      · simp only [FinancialMetricsAgent.process_message, h1, hf] at hp
        simp [PUBSUB_TOPIC_DASHBOARD_UPDATES,
          PUBSUB_TOPIC_FINANCIAL_DATA_AVAILABLE] at hp
      · by_cases h2 : truthy? fd? = true
        · rcases hi : env.insertOutcome with e | b
          · simp only [FinancialMetricsAgent.process_message, h1, hf, h2, hi] at hp
            simp [PUBSUB_TOPIC_DASHBOARD_UPDATES,
              PUBSUB_TOPIC_FINANCIAL_DATA_AVAILABLE] at hp
          · cases b
            · simp only [FinancialMetricsAgent.process_message, h1, hf, h2, hi] at hp
              simp [PUBSUB_TOPIC_DASHBOARD_UPDATES,
                PUBSUB_TOPIC_FINANCIAL_DATA_AVAILABLE] at hp
            · simp only [FinancialMetricsAgent.process_message, h1, hf, h2,
                hi] at hp ⊢
              simp [PUBSUB_TOPIC_DASHBOARD_UPDATES,
                PUBSUB_TOPIC_FINANCIAL_DATA_AVAILABLE] at hp
              subst hp
              exact ⟨trivial, orNull fd?, _, rfl⟩
        · simp only [Bool.not_eq_true] at h2
          simp only [FinancialMetricsAgent.process_message, h1, hf, h2] at hp
          simp [PUBSUB_TOPIC_DASHBOARD_UPDATES,
            PUBSUB_TOPIC_FINANCIAL_DATA_AVAILABLE] at hp
    · simp only [Bool.not_eq_true] at h1
      simp only [FinancialMetricsAgent.process_message, h1] at hp
      simp [PUBSUB_TOPIC_DASHBOARD_UPDATES,
        PUBSUB_TOPIC_FINANCIAL_DATA_AVAILABLE] at hp

/-- C5 witness: at the concrete run whose insert reports failure, the
theorem's failure direction applies. -/
theorem metrics_no_trigger_without_persistence_witness :
    (FinancialMetricsAgent.process_message c5_env c5_msg).filter
        (fun e => e.isPublishTo PUBSUB_TOPIC_FINANCIAL_DATA_AVAILABLE) = []
    ∧ ((FinancialMetricsAgent.process_message c5_env c5_msg).filter
        (fun e => e.isStatus "FAILED")).length = 1
    ∧ (FinancialMetricsAgent.process_message c5_env c5_msg).filter
        (fun e => e.isStatus "COMPLETED") = [] :=
  (metrics_no_trigger_without_persistence c5_env c5_msg).1 (by simp [c5_env])

/-! ### Dates (datetime.strptime / timedelta, as the summarizer uses them)

The summarizer parses `date` with `strptime(.., "%Y-%m-%d")`, subtracts a
30-day `timedelta` and formats both ends back with `strftime`.  The model
accepts the zero-padded ISO form the system itself produces. -/


/-! ### Insight Summarizer claims -/

/-- C7 (amended): with a truthy ticker, a well-formed date and zero metric
rows in the lookback window, the run publishes exactly one `IN_PROGRESS`
status followed by exactly one `SKIPPED` status — no other effect, in
particular zero insight rows persisted.  (The original claim's "exactly one
SKIPPED and no other status" fails: the `IN_PROGRESS` update of lines
106-111 precedes the window query.) -/
theorem summarizer_empty_window_inprogress_then_skipped
    (env : NumericalSummarizerAgent.Env) (m : Json) (ds : String) (endD : YMD)
    (hts : truthy? (m.get? "ticker") = true)
    (hdate : m.get? "date" = some (.str ds))
    (hds : parseYMD ds = some endD)
    (hrows : env.metricsResult = some []) :
    NumericalSummarizerAgent.process_message env m = some
      [Effect.publish PUBSUB_TOPIC_DASHBOARD_UPDATES
        (NumericalSummarizerAgent.statusPayload (m.get? "request_id")
          "IN_PROGRESS"
          ("Analyzing financial metrics for " ++ pyStr? (m.get? "ticker")
            ++ " from " ++ formatYMD (daysToYMD (ymdToDays endD - 30))
            ++ " to " ++ ds ++ ".")),
       Effect.publish PUBSUB_TOPIC_DASHBOARD_UPDATES
        (NumericalSummarizerAgent.statusPayload (m.get? "request_id")
          "SKIPPED"
          ("No data for " ++ pyStr? (m.get? "ticker") ++ " to summarize."))] := by
  have hne : ds ≠ "" := by
    intro hEq
    subst hEq
    exact absurd hds (by simp [parseYMD])
  have htd : truthy? (m.get? "date") = true := by
    rw [hdate]
    simp [truthy?, Json.truthy, hne]
  simp only [NumericalSummarizerAgent.process_message, hts, htd, hdate, hds,
    hrows]
  simp [truthy?, Json.truthy, hne]

/-- C7 witness: the amended theorem applied at the concrete empty-window
run. -/
theorem summarizer_empty_window_inprogress_then_skipped_witness :
    NumericalSummarizerAgent.process_message c7_env c7_msg = some
      [Effect.publish PUBSUB_TOPIC_DASHBOARD_UPDATES
        (NumericalSummarizerAgent.statusPayload (c7_msg.get? "request_id")
          "IN_PROGRESS"
          ("Analyzing financial metrics for " ++ pyStr? (c7_msg.get? "ticker")
            ++ " from " ++ formatYMD (daysToYMD (ymdToDays ⟨2024, 6, 18⟩ - 30))
            ++ " to " ++ "2024-06-18" ++ ".")),
       Effect.publish PUBSUB_TOPIC_DASHBOARD_UPDATES
        (NumericalSummarizerAgent.statusPayload (c7_msg.get? "request_id")
          "SKIPPED"
          ("No data for " ++ pyStr? (c7_msg.get? "ticker")
            ++ " to summarize."))] :=
  summarizer_empty_window_inprogress_then_skipped c7_env c7_msg
    "2024-06-18" ⟨2024, 6, 18⟩ rfl rfl rfl rfl

/-- C7 counterexample: at the concrete empty-window run the trace holds two
status updates — an `IN_PROGRESS` and then the `SKIPPED` — so "exactly one
`SKIPPED` status update and no other status" is false (zero insight rows
are indeed persisted). -/
theorem summarizer_empty_window_extra_status_counterexample :
    ∃ tr, NumericalSummarizerAgent.process_message c7_env c7_msg = some tr
      ∧ (tr.filter Effect.isStatusUpdate).length = 2
      ∧ (tr.filter (fun e => e.isStatus "SKIPPED")).length = 1
      ∧ (tr.filter (fun e => e.isStatus "IN_PROGRESS")).length = 1
      ∧ tr.filter Effect.isInsert = [] := by
  refine ⟨_, rfl, ?_, ?_, ?_, ?_⟩ <;> rfl

/-- C8 (amended): with a truthy ticker, a well-formed date, at least one
metric row and a non-raising insert, the run persists exactly two insight
rows in one batch — types `overall_price_trend` and
`volume_volatility_analysis` — then publishes a completion trigger whose
`insights_count` equals 2 and a `COMPLETED` status.  (The original claim's
"COMPLETED status whose insights_count equals 2" fails: that field rides on
the trigger message, not on the status update.) -/
theorem summarizer_nonempty_two_insights_then_trigger
    (env : NumericalSummarizerAgent.Env) (m : Json) (ds : String) (endD : YMD)
    (r : Json) (rs : List Json) (b : Bool)
    (hts : truthy? (m.get? "ticker") = true)
    (hdate : m.get? "date" = some (.str ds))
    (hds : parseYMD ds = some endD)
    (hrows : env.metricsResult = some (r :: rs))
    (hins : env.insertOutcome = Except.ok b) :
    NumericalSummarizerAgent.process_message env m = some
      [Effect.publish PUBSUB_TOPIC_DASHBOARD_UPDATES
        (NumericalSummarizerAgent.statusPayload (m.get? "request_id")
          "IN_PROGRESS"
          ("Analyzing financial metrics for " ++ pyStr? (m.get? "ticker")
            ++ " from " ++ formatYMD (daysToYMD (ymdToDays endD - 30))
            ++ " to " ++ ds ++ ".")),
       Effect.llm (NumericalSummarizerAgent.summaryPrompt (m.get? "ticker")
         (r :: rs) "Overall Price Trend"),
       Effect.llm (NumericalSummarizerAgent.summaryPrompt (m.get? "ticker")
         (r :: rs) "Volume and Volatility"),
       Effect.bqInsert BIGQUERY_TABLE_NUMERICAL_INSIGHTS
         [NumericalSummarizerAgent.insightRow (m.get? "ticker")
            "overall_price_trend" (formatYMD endD)
            (NumericalSummarizerAgent.summaryOrFallback env.geminiTrend)
            ("financial_metrics:" ++ pyStr? (m.get? "ticker") ++ ":"
              ++ formatYMD (daysToYMD (ymdToDays endD - 30)) ++ "_to_" ++ ds)
            env.ts1,
          NumericalSummarizerAgent.insightRow (m.get? "ticker")
            "volume_volatility_analysis" (formatYMD endD)
            (NumericalSummarizerAgent.summaryOrFallback env.geminiVol)
            ("financial_metrics:" ++ pyStr? (m.get? "ticker") ++ ":"
              ++ formatYMD (daysToYMD (ymdToDays endD - 30)) ++ "_to_" ++ ds)
            env.ts2],
       Effect.publish PUBSUB_TOPIC_NUMERICAL_INSIGHTS_PROCESSED (.obj
         [("ticker", orNull (m.get? "ticker")),
          ("date", .str ds),
          ("insights_count", .num 2),
          ("request_id", orNull (m.get? "request_id"))]),
       Effect.publish PUBSUB_TOPIC_DASHBOARD_UPDATES
        (NumericalSummarizerAgent.statusPayload (m.get? "request_id")
          "COMPLETED"
          ("Numerical insights generated for " ++ pyStr? (m.get? "ticker")
            ++ " on " ++ ds ++ "."))] := by
  have hne : ds ≠ "" := by
    intro hEq
    subst hEq
    exact absurd hds (by simp [parseYMD])
  have htd : truthy? (m.get? "date") = true := by
    rw [hdate]
    simp [truthy?, Json.truthy, hne]
  simp only [NumericalSummarizerAgent.process_message, hts, htd, hdate, hds,
    hrows, hins]
  simp [truthy?, Json.truthy, hne, orNull, pyStr?, pyStr]

/-- C8 witness: the amended theorem applied at the concrete one-row run. -/
theorem summarizer_nonempty_two_insights_then_trigger_witness :
    NumericalSummarizerAgent.process_message c8_env c8_msg = some
      [Effect.publish PUBSUB_TOPIC_DASHBOARD_UPDATES
        (NumericalSummarizerAgent.statusPayload (c8_msg.get? "request_id")
          "IN_PROGRESS"
          ("Analyzing financial metrics for " ++ pyStr? (c8_msg.get? "ticker")
            ++ " from " ++ formatYMD (daysToYMD (ymdToDays ⟨2024, 6, 18⟩ - 30))
            ++ " to " ++ "2024-06-18" ++ ".")),
       Effect.llm (NumericalSummarizerAgent.summaryPrompt (c8_msg.get? "ticker")
         [Json.obj [("date", .str "2024-06-17"), ("close", .num 103),
            ("volume", .num 100000), ("day_change_percent", .num 3)]]
         "Overall Price Trend"),
       Effect.llm (NumericalSummarizerAgent.summaryPrompt (c8_msg.get? "ticker")
         [Json.obj [("date", .str "2024-06-17"), ("close", .num 103),
            ("volume", .num 100000), ("day_change_percent", .num 3)]]
         "Volume and Volatility"),
       Effect.bqInsert BIGQUERY_TABLE_NUMERICAL_INSIGHTS
         [NumericalSummarizerAgent.insightRow (c8_msg.get? "ticker")
            "overall_price_trend" (formatYMD ⟨2024, 6, 18⟩)
            (NumericalSummarizerAgent.summaryOrFallback c8_env.geminiTrend)
            ("financial_metrics:" ++ pyStr? (c8_msg.get? "ticker") ++ ":"
              ++ formatYMD (daysToYMD (ymdToDays ⟨2024, 6, 18⟩ - 30))
              ++ "_to_" ++ "2024-06-18")
            c8_env.ts1,
          NumericalSummarizerAgent.insightRow (c8_msg.get? "ticker")
            "volume_volatility_analysis" (formatYMD ⟨2024, 6, 18⟩)
            (NumericalSummarizerAgent.summaryOrFallback c8_env.geminiVol)
            ("financial_metrics:" ++ pyStr? (c8_msg.get? "ticker") ++ ":"
              ++ formatYMD (daysToYMD (ymdToDays ⟨2024, 6, 18⟩ - 30))
              ++ "_to_" ++ "2024-06-18")
            c8_env.ts2],
       Effect.publish PUBSUB_TOPIC_NUMERICAL_INSIGHTS_PROCESSED (.obj
         [("ticker", orNull (c8_msg.get? "ticker")),
          ("date", .str "2024-06-18"),
          ("insights_count", .num 2),
          ("request_id", orNull (c8_msg.get? "request_id"))]),
       Effect.publish PUBSUB_TOPIC_DASHBOARD_UPDATES
        (NumericalSummarizerAgent.statusPayload (c8_msg.get? "request_id")
          "COMPLETED"
          ("Numerical insights generated for " ++ pyStr? (c8_msg.get? "ticker")
            ++ " on " ++ "2024-06-18" ++ "."))] :=
  summarizer_nonempty_two_insights_then_trigger c8_env c8_msg
    "2024-06-18" ⟨2024, 6, 18⟩ _ _ true rfl rfl rfl rfl rfl

/-- C8 counterexample: at the concrete one-row run there is exactly one
`COMPLETED` status update, no status update carries an `insights_count`
field at all (let alone 2), while the completion trigger — a non-status
publish — is the message carrying `insights_count = 2`: "a COMPLETED status
whose insights_count equals 2" is false of this code. -/
theorem summarizer_completed_lacks_insights_count_counterexample :
    ∃ tr, NumericalSummarizerAgent.process_message c8_env c8_msg = some tr
      ∧ (tr.filter (fun e => e.isStatus "COMPLETED")).length = 1
      ∧ tr.filter (fun e => e.isStatusUpdate
          && !(e.payloadField? "insights_count").isNone) = []
      ∧ (tr.filter (fun e => e.isForward
          && isNumVal (e.payloadField? "insights_count") 2)).length = 1 := by
  refine ⟨_, rfl, ?_, ?_, ?_⟩ <;> rfl

/-- C10: the Insight Summarizer ignores the boolean result of its batch
insert — with `insert_rows` returning `False`, it still publishes the
completion trigger with `insights_count = 2` and a `COMPLETED` status (and
no `FAILED` one); the Metrics Fetcher under the same `False` outcome
publishes neither trigger nor `COMPLETED`. -/
theorem summarizer_ignores_insert_result :
    (∃ tr, NumericalSummarizerAgent.process_message c10_env c10_msg = some tr
      ∧ c10_env.insertOutcome = Except.ok false
      ∧ (tr.filter (fun e => e.isForward
          && isNumVal (e.payloadField? "insights_count") 2)).length = 1
      ∧ (tr.filter (fun e => e.isStatus "COMPLETED")).length = 1
      ∧ tr.filter (fun e => e.isStatus "FAILED") = [])
    ∧ (FinancialMetricsAgent.process_message c10_fin_env c10_fin_msg).filter
        (fun e => e.isPublishTo PUBSUB_TOPIC_FINANCIAL_DATA_AVAILABLE) = []
    ∧ (FinancialMetricsAgent.process_message c10_fin_env c10_fin_msg).filter
        (fun e => e.isStatus "COMPLETED") = [] :=
  ⟨⟨_, rfl, rfl, rfl, rfl, rfl⟩, rfl, rfl⟩

/-! ### JSON text codec (Python `json.dumps` / `json.loads`)

The broker payloads travel as JSON text.  `json.dumps` is modelled with its
default settings: separators `", "` and `": "`, `ensure_ascii=True` (every
character outside printable ASCII escaped, astral characters as surrogate
pairs).  Numbers in the modelled domain are integers (`Json.num : Int`);
Python floats are out of scope throughout this development. -/


/-! ### Report Generator claims -/

/-- C9: when `report_type` has no registered template (and the run starts,
i.e. `report_date` resolves), processing aborts before any language-model
call and before any artifact write, and persistence is exactly one
`IN_PROGRESS` metadata row followed by one `FAILED` metadata row carrying
the same report id (both rows are built over `env.reportId`). -/
theorem report_unknown_type_two_rows_no_artifact
    (env : ReportGeneratorAgent.Env) (m : Json) (rd : YMD) (rds : String)
    (hrd : ReportGeneratorAgent.resolveReportDate env m = some (rd, rds))
    (htpl : get_report_template (m.get? "report_type") = none) :
    ∃ tr, ReportGeneratorAgent.process_message env m = some tr
    ∧ tr.filter Effect.isInsert
      = [.bqInsert BIGQUERY_TABLE_REPORT_METADATA
           [ReportGeneratorAgent.reportMetadata env.reportId
             (m.get? "report_type") (m.get? "company_ticker") env.tsGen ""
             ((m.get? "parameters").getD (.obj [])) "IN_PROGRESS" env.tsIngest],
         .bqInsert BIGQUERY_TABLE_REPORT_METADATA
           [ReportGeneratorAgent.reportMetadata env.reportId
             (m.get? "report_type") (m.get? "company_ticker") env.tsGen ""
             ((m.get? "parameters").getD (.obj [])) "FAILED" env.tsIngest]]
    ∧ tr.filter Effect.isLlm = []
    ∧ tr.filter Effect.isArtifactWrite = [] := by
  by_cases ht : truthy? (m.get? "company_ticker") = true
  · rcases hfb : ReportGeneratorAgent.financialBlock (m.get? "company_ticker")
        env.finRows with e | fi
    · exact ⟨_, by simp [ReportGeneratorAgent.process_message, hrd, ht, hfb] <;> rfl,
        by simp [ReportGeneratorAgent.tailFailed, Effect.isInsert, List.filter],
        by simp [ReportGeneratorAgent.tailFailed, Effect.isLlm, List.filter],
        by simp [ReportGeneratorAgent.tailFailed, Effect.isArtifactWrite, List.filter]⟩
    · exact ⟨_, by simp [ReportGeneratorAgent.process_message, hrd, ht, hfb, htpl] <;> rfl,
        by simp [ReportGeneratorAgent.tailFailed, Effect.isInsert, List.filter],
        by simp [ReportGeneratorAgent.tailFailed, Effect.isLlm, List.filter],
        by simp [ReportGeneratorAgent.tailFailed, Effect.isArtifactWrite, List.filter]⟩
  · simp only [Bool.not_eq_true] at ht
    exact ⟨_, by simp [ReportGeneratorAgent.process_message, hrd, ht, htpl] <;> rfl,
      by simp [ReportGeneratorAgent.tailFailed, Effect.isInsert, List.filter],
      by simp [ReportGeneratorAgent.tailFailed, Effect.isLlm, List.filter],
      by simp [ReportGeneratorAgent.tailFailed, Effect.isArtifactWrite, List.filter]⟩

/-- C9 witness: the theorem applied at the concrete unregistered-type
request. -/
theorem report_unknown_type_two_rows_no_artifact_witness :
    ∃ tr, ReportGeneratorAgent.process_message c9_env c9_msg = some tr
    ∧ tr.filter Effect.isInsert
      = [.bqInsert BIGQUERY_TABLE_REPORT_METADATA
           [ReportGeneratorAgent.reportMetadata c9_env.reportId
             (c9_msg.get? "report_type") (c9_msg.get? "company_ticker")
             c9_env.tsGen "" ((c9_msg.get? "parameters").getD (.obj []))
             "IN_PROGRESS" c9_env.tsIngest],
         .bqInsert BIGQUERY_TABLE_REPORT_METADATA
           [ReportGeneratorAgent.reportMetadata c9_env.reportId
             (c9_msg.get? "report_type") (c9_msg.get? "company_ticker")
             c9_env.tsGen "" ((c9_msg.get? "parameters").getD (.obj []))
             "FAILED" c9_env.tsIngest]]
    ∧ tr.filter Effect.isLlm = []
    ∧ tr.filter Effect.isArtifactWrite = [] :=
  report_unknown_type_two_rows_no_artifact c9_env c9_msg c9_env.today
    (formatYMD c9_env.today) rfl rfl

/-- A falsy `report_type` has no registered template: `dict.get` of `None`,
`0`, `""`, an empty container or `False` finds no key. -/
theorem get_report_template_falsy {o : Option Json} (h : truthy? o = false) :
    get_report_template o = none := by
  rcases o with _ | v
  · rfl
  · rcases v with _ | b | n | s | xs | kvs
    · rfl
    · cases b
      · rfl
      · cases h
    · rfl
    · have hs : s = "" := by simpa [truthy?, Json.truthy] using h
      subst hs
      rfl
    · rfl
    · rfl

/-- C4 (amended): a report request missing `report_type` and any
identifying field is not rejected up front — the run persists an
`IN_PROGRESS` metadata row and publishes an `IN_PROGRESS` status, then
fails at template lookup: a `FAILED` metadata row (same report id) and one
`FAILED` status follow, with no model call and no artifact write.  (The
original claim's "no persistence at all" fails: two metadata rows are
inserted.) -/
theorem report_missing_fields_still_persists
    (env : ReportGeneratorAgent.Env) (m : Json) (rd : YMD) (rds : String)
    (hrt : truthy? (m.get? "report_type") = false)
    (htick : truthy? (m.get? "company_ticker") = false)
    (hrd : ReportGeneratorAgent.resolveReportDate env m = some (rd, rds)) :
    ∃ tr, ReportGeneratorAgent.process_message env m = some tr
    ∧ tr.filter Effect.isInsert
      = [.bqInsert BIGQUERY_TABLE_REPORT_METADATA
           [ReportGeneratorAgent.reportMetadata env.reportId
             (m.get? "report_type") (m.get? "company_ticker") env.tsGen ""
             ((m.get? "parameters").getD (.obj [])) "IN_PROGRESS" env.tsIngest],
         .bqInsert BIGQUERY_TABLE_REPORT_METADATA
           [ReportGeneratorAgent.reportMetadata env.reportId
             (m.get? "report_type") (m.get? "company_ticker") env.tsGen ""
             ((m.get? "parameters").getD (.obj [])) "FAILED" env.tsIngest]]
    ∧ ((tr.filter (fun e => e.isStatus "FAILED")).length = 1
      ∧ (tr.filter (fun e => e.isStatus "IN_PROGRESS")).length = 1)
    ∧ tr.filter Effect.isLlm = []
    ∧ tr.filter Effect.isArtifactWrite = [] := by
  have htpl := get_report_template_falsy hrt
  exact ⟨_, by simp [ReportGeneratorAgent.process_message, hrd, htick, htpl] <;> rfl,
    by simp [ReportGeneratorAgent.tailFailed, Effect.isInsert, List.filter],
    by simp [ReportGeneratorAgent.tailFailed, Effect.isStatus, isStrVal,
      Json.get?, List.filter, List.lookup, PUBSUB_TOPIC_DASHBOARD_UPDATES],
    by simp [ReportGeneratorAgent.tailFailed, Effect.isLlm, List.filter],
    by simp [ReportGeneratorAgent.tailFailed, Effect.isArtifactWrite, List.filter]⟩

/-- C4 witness: the amended theorem applied at the concrete empty request. -/
theorem report_missing_fields_still_persists_witness :
    ∃ tr, ReportGeneratorAgent.process_message c4_env c4_msg = some tr
    ∧ tr.filter Effect.isInsert
      = [.bqInsert BIGQUERY_TABLE_REPORT_METADATA
           [ReportGeneratorAgent.reportMetadata c4_env.reportId
             (c4_msg.get? "report_type") (c4_msg.get? "company_ticker")
             c4_env.tsGen "" ((c4_msg.get? "parameters").getD (.obj []))
             "IN_PROGRESS" c4_env.tsIngest],
         .bqInsert BIGQUERY_TABLE_REPORT_METADATA
           [ReportGeneratorAgent.reportMetadata c4_env.reportId
             (c4_msg.get? "report_type") (c4_msg.get? "company_ticker")
             c4_env.tsGen "" ((c4_msg.get? "parameters").getD (.obj []))
             "FAILED" c4_env.tsIngest]]
    ∧ ((tr.filter (fun e => e.isStatus "FAILED")).length = 1
      ∧ (tr.filter (fun e => e.isStatus "IN_PROGRESS")).length = 1)
    ∧ tr.filter Effect.isLlm = []
    ∧ tr.filter Effect.isArtifactWrite = [] :=
  report_missing_fields_still_persists c4_env c4_msg c4_env.today
    (formatYMD c4_env.today) rfl rfl rfl

/-- C4 counterexample: at the concrete invalid request the agent performs
persistence — two metadata-row inserts, the first an `IN_PROGRESS` row —
so "publishes a FAILED status and performs no persistence at all (not even
an IN_PROGRESS row)" is false of this code. -/
theorem report_missing_fields_inserts_row_counterexample :
    ∃ tr, ReportGeneratorAgent.process_message c4_env c4_msg = some tr
      ∧ (tr.filter Effect.isInsert).length = 2
      ∧ tr.head? = some (.bqInsert BIGQUERY_TABLE_REPORT_METADATA
          [ReportGeneratorAgent.reportMetadata "rid-4" none none "g-ts" ""
            (.obj []) "IN_PROGRESS" "i-ts"])
      ∧ (tr.filter (fun e => e.isStatus "FAILED")).length = 1 := by
  refine ⟨_, rfl, ?_, ?_, ?_⟩ <;> rfl

/-! ### Base64 (the broker's transport wrapping of inbound push data,
undone by `base64.b64decode` in `handle_pubsub_message`)

The decoder is strict about the alphabet and padding; Python's
`b64decode(validate=False)` additionally discards characters outside the
alphabet before decoding, a leniency no claim depends on. -/

/-- Decoding inverts the alphabet table on every 6-bit group. -/
theorem b64Index_b64Char : ∀ k : Fin 64, b64Index? (b64Char k) = some (k : Nat) := by
  decide

/-- No alphabet character is the padding character. -/
theorem b64Char_ne_pad : ∀ k : Fin 64, b64Char k ≠ '=' := by
  decide

/-- `b64Index_b64Char` with the bound as a hypothesis. -/
theorem b64Index_b64Char_nat (k : Nat) (h : k < 64) :
    b64Index? (b64Char k) = some k := by
  simpa using b64Index_b64Char ⟨k, h⟩

/-- `b64Char_ne_pad` with the bound as a hypothesis. -/
theorem b64Char_ne_pad_nat (k : Nat) (h : k < 64) : b64Char k ≠ '=' := by
  simpa using b64Char_ne_pad ⟨k, h⟩

/-- The base64 codec round-trip on byte lists. -/
theorem b64Decode_b64Encode : ∀ bs : List Nat, (∀ b ∈ bs, b < 256) →
    b64Decode (b64Encode bs) = some bs
  | [], _ => rfl
  | [a], h => by
    have ha : a < 256 := h a (by simp)
    have h1 := b64Index_b64Char_nat (a / 4) (by omega)
    have h2 := b64Index_b64Char_nat (a % 4 * 16) (by omega)
    simp only [b64Encode, b64Decode, h1, h2]
    simp
    omega
  | [a, b], h => by
    have ha : a < 256 := h a (by simp)
    have hb : b < 256 := h b (by simp)
    have h1 := b64Index_b64Char_nat (a / 4) (by omega)
    have h2 := b64Index_b64Char_nat (a % 4 * 16 + b / 16) (by omega)
    have h3 := b64Index_b64Char_nat (b % 16 * 4) (by omega)
    have hne := b64Char_ne_pad_nat (a % 4 * 16 + b / 16) (by omega)
    have hne3 := b64Char_ne_pad_nat (b % 16 * 4) (by omega)
    simp only [b64Encode, b64Decode, h1, h2, h3, if_neg hne, if_neg hne3]
    simp
    omega
  | a :: b :: c :: rest, h => by
    have ha : a < 256 := h a (by simp)
    have hb : b < 256 := h b (by simp)
    have hc : c < 256 := h c (by simp)
    have ih := b64Decode_b64Encode rest
      (fun x hx => h x (by simp [hx]))
    have h1 := b64Index_b64Char_nat (a / 4) (by omega)
    have h2 := b64Index_b64Char_nat (a % 4 * 16 + b / 16) (by omega)
    have h3 := b64Index_b64Char_nat (b % 16 * 4 + c / 64) (by omega)
    have h4 := b64Index_b64Char_nat (c % 64) (by omega)
    have hne2 := b64Char_ne_pad_nat (a % 4 * 16 + b / 16) (by omega)
    have hne3 := b64Char_ne_pad_nat (b % 16 * 4 + c / 64) (by omega)
    have hne4 := b64Char_ne_pad_nat (c % 64) (by omega)
    simp only [b64Encode, b64Decode, h1, h2, h3, h4, if_neg hne2, if_neg hne3,
      if_neg hne4, ih]
    simp
    omega

/-! ### UTF-8 (`str.encode('utf-8')` on the outbound path,
`bytes.decode('utf-8')` on the inbound path) -/

/-- A `Char` is a unicode scalar value: below 0x110000 and not a surrogate. -/
theorem char_toNat_valid (c : Char) :
    c.toNat < 1114112 ∧ ¬(55296 ≤ c.toNat ∧ c.toNat < 57344) := by
  have heq : c.toNat = c.val.toNat := rfl
  have h := c.valid
  rcases h with h | ⟨h1, h2⟩
  · rw [heq]
    exact ⟨by omega, by omega⟩
  · rw [heq]
    exact ⟨by omega, by omega⟩

/-- Decoding one encoded scalar recovers it and leaves the rest. -/
theorem utf8DecodeStep_encodeChar (c : Char) (rest : List Nat) :
    utf8DecodeStep (utf8EncodeChar c ++ rest) = some (c, rest) := by
  obtain ⟨hlt, hsur⟩ := char_toNat_valid c
  by_cases h1 : c.toNat < 128
  · simp only [utf8EncodeChar, if_pos h1, List.cons_append, List.nil_append,
      utf8DecodeStep, Char.ofNat_toNat]
  · by_cases h2 : c.toNat < 2048
    · simp only [utf8EncodeChar, if_neg h1, if_pos h2, List.cons_append,
        List.nil_append, utf8DecodeStep]
      rw [if_neg (by omega), if_neg (by omega), if_pos (by omega),
        if_pos (show 128 ≤ 128 + c.toNat % 64 ∧ 128 + c.toNat % 64 < 192 by omega)]
      have e : (192 + c.toNat / 64 - 192) * 64 + (128 + c.toNat % 64 - 128)
          = c.toNat := by omega
      rw [e, Char.ofNat_toNat]
    · by_cases h3 : c.toNat < 65536
      · simp only [utf8EncodeChar, if_neg h1, if_neg h2, if_pos h3,
          List.cons_append, List.nil_append, utf8DecodeStep]
        rw [if_neg (by omega), if_neg (by omega), if_neg (by omega),
          if_pos (by omega),
          if_pos (show 128 ≤ 128 + c.toNat / 64 % 64
            ∧ 128 + c.toNat / 64 % 64 < 192 ∧ 128 ≤ 128 + c.toNat % 64
            ∧ 128 + c.toNat % 64 < 192 by omega)]
        have e : (224 + c.toNat / 4096 - 224) * 4096
            + (128 + c.toNat / 64 % 64 - 128) * 64 + (128 + c.toNat % 64 - 128)
            = c.toNat := by omega
        simp only [e]
        rw [if_pos ⟨by omega, hsur⟩, Char.ofNat_toNat]
      · simp only [utf8EncodeChar, if_neg h1, if_neg h2, if_neg h3,
          List.cons_append, List.nil_append, utf8DecodeStep]
        rw [if_neg (by omega), if_neg (by omega), if_neg (by omega),
          if_neg (by omega), if_pos (by omega),
          if_pos (show 128 ≤ 128 + c.toNat / 4096 % 64
            ∧ 128 + c.toNat / 4096 % 64 < 192 ∧ 128 ≤ 128 + c.toNat / 64 % 64
            ∧ 128 + c.toNat / 64 % 64 < 192 ∧ 128 ≤ 128 + c.toNat % 64
            ∧ 128 + c.toNat % 64 < 192 by omega)]
        have e : (240 + c.toNat / 262144 - 240) * 262144
            + (128 + c.toNat / 4096 % 64 - 128) * 4096
            + (128 + c.toNat / 64 % 64 - 128) * 64 + (128 + c.toNat % 64 - 128)
            = c.toNat := by omega
        simp only [e]
        rw [if_pos ⟨by omega, by omega⟩, Char.ofNat_toNat]

/-- The encoder emits at least one byte per scalar. -/
theorem utf8EncodeChar_ne_nil (c : Char) : utf8EncodeChar c ≠ [] := by
  unfold utf8EncodeChar
  by_cases h1 : c.toNat < 128
  · simp [h1]
  · by_cases h2 : c.toNat < 2048
    · simp [h1, h2]
    · by_cases h3 : c.toNat < 65536
      · simp [h1, h2, h3]
      · simp [h1, h2, h3]

/-- The UTF-8 round-trip on character lists, for any sufficient fuel. -/
theorem utf8DecodeAux_flatMap : ∀ (cs : List Char) (fuel : Nat),
    (cs.flatMap utf8EncodeChar).length ≤ fuel →
    utf8DecodeAux fuel (cs.flatMap utf8EncodeChar) = some cs := by
  intro cs
  induction cs with
  | nil => intro fuel _; simp [utf8DecodeAux]
  | cons c cs ih =>
    intro fuel hf
    rw [List.flatMap_cons] at hf ⊢
    rcases henc : utf8EncodeChar c with _ | ⟨b, bs'⟩
    · exact absurd henc (utf8EncodeChar_ne_nil c)
    · rcases fuel with _ | f
      · rw [henc] at hf
        simp at hf
      · have hstep : utf8DecodeStep ((b :: bs')
            ++ cs.flatMap utf8EncodeChar) = some (c, cs.flatMap utf8EncodeChar) := by
          rw [← henc]
          exact utf8DecodeStep_encodeChar c _
        have hlen : (cs.flatMap utf8EncodeChar).length ≤ f := by
          rw [List.length_append, henc] at hf
          simp only [List.length_cons] at hf
          omega
        simp only [List.cons_append] at hstep
        simp only [List.cons_append, utf8DecodeAux, List.append_eq, hstep]
        rw [ih f hlen]
        rfl

/-- The UTF-8 codec round-trip on strings. -/
theorem utf8Decode_utf8Encode (s : String) :
    utf8Decode (utf8Encode s) = some s.data :=
  utf8DecodeAux_flatMap s.data _ le_rfl

/-- Every byte the UTF-8 encoder emits fits in an octet. -/
theorem utf8Encode_lt_256 (s : String) : ∀ b ∈ utf8Encode s, b < 256 := by
  intro b hb
  rw [utf8Encode, List.mem_flatMap] at hb
  obtain ⟨c, _, hbc⟩ := hb
  obtain ⟨hlt, -⟩ := char_toNat_valid c
  revert hbc
  unfold utf8EncodeChar
  by_cases h1 : c.toNat < 128
  · simp only [if_pos h1, List.mem_singleton]
    omega
  · by_cases h2 : c.toNat < 2048
    · simp only [if_neg h1, if_pos h2, List.mem_cons, List.not_mem_nil, or_false]
      omega
    · by_cases h3 : c.toNat < 65536
      · simp only [if_neg h1, if_neg h2, if_pos h3, List.mem_cons,
          List.not_mem_nil, or_false]
        omega
      · simp only [if_neg h1, if_neg h2, if_neg h3, List.mem_cons,
          List.not_mem_nil, or_false]
        omega

/-! ### `json.loads` (the subset reaching the modelled value domain:
objects, arrays, strings with escapes and surrogate pairs, integers,
booleans, null; a fractional or exponent part — a Python float — falls
outside the modelled domain and is rejected rather than approximated) -/

theorem natCharsAux_congr : ∀ (n fuel fuel' : Nat), n < fuel → n < fuel' →
    natCharsAux fuel n = natCharsAux fuel' n := by
  intro n
  induction n using Nat.strong_induction_on with
  | _ n ih =>
    intro fuel fuel' hf hf'
    rcases fuel with _ | f
    · omega
    rcases fuel' with _ | f'
    · omega
    simp only [natCharsAux]
    by_cases h10 : n < 10
    · simp [h10]
    · simp only [if_neg h10]
      rw [ih (n / 10) (by omega) f f' (by omega) (by omega)]

theorem natChars_unfold (n : Nat) :
    natChars n = if n < 10 then [digitChar n]
      else natChars (n / 10) ++ [digitChar (n % 10)] := by
  show natCharsAux (n + 1) n = _
  simp only [natCharsAux]
  by_cases h10 : n < 10
  · simp [h10]
  · simp only [if_neg h10]
    rw [natCharsAux_congr (n / 10) n (n / 10 + 1) (by omega) (by omega)]
    rfl

theorem digitChar_spec : ∀ k : Fin 10,
    isDec (digitChar k) = true ∧ (digitChar k).toNat = 48 + (k : Nat) := by
  decide

theorem isDec_digitChar (k : Nat) : isDec (digitChar (k % 10)) = true := by
  have := digitChar_spec ⟨k % 10, by omega⟩
  simpa using this.1

theorem toNat_digitChar (k : Nat) : (digitChar (k % 10)).toNat = 48 + k % 10 := by
  have := digitChar_spec ⟨k % 10, by omega⟩
  simpa using this.2

theorem natChars_ne_nil (n : Nat) : natChars n ≠ [] := by
  rw [natChars_unfold]
  by_cases h10 : n < 10
  · simp [h10]
  · simp [h10]

theorem natChars_digits (n : Nat) : ∀ c ∈ natChars n, isDec c = true := by
  induction n using Nat.strong_induction_on with
  | _ n ih =>
    rw [natChars_unfold]
    by_cases h10 : n < 10
    · simp only [if_pos h10, List.mem_singleton]
      rintro c rfl
      have : n % 10 = n := Nat.mod_eq_of_lt h10
      simpa [this] using isDec_digitChar n
    · simp only [if_neg h10, List.mem_append, List.mem_singleton]
      rintro c (hc | rfl)
      · exact ih (n / 10) (by omega) c hc
      · exact isDec_digitChar n

theorem digitsVal_natChars (n : Nat) : digitsVal (natChars n) = n := by
  induction n using Nat.strong_induction_on with
  | _ n ih =>
    rw [natChars_unfold]
    by_cases h10 : n < 10
    · have hd : (digitChar n).toNat = 48 + n := by
        have := toNat_digitChar n
        rw [Nat.mod_eq_of_lt h10] at this
        exact this
      simp [h10, digitsVal, hd]
    · simp only [if_neg h10, digitsVal, List.foldl_append, List.foldl_cons,
        List.foldl_nil]
      have := ih (n / 10) (by omega)
      rw [digitsVal] at this
      rw [this, toNat_digitChar n]
      omega

theorem natChars_small (n : Nat) (h : n < 10) : natChars n = [digitChar n] := by
  rw [natChars_unfold, if_pos h]

theorem natChars_head_ne_zero : ∀ n : Nat, 10 ≤ n →
    ∃ d ds, natChars n = d :: ds ∧ d ≠ '0' := by
  intro n
  induction n using Nat.strong_induction_on with
  | _ n ih =>
    intro h10
    rw [natChars_unfold, if_neg (by omega)]
    by_cases hq : n / 10 < 10
    · have hq1 : 1 ≤ n / 10 := by omega
      rw [natChars_small (n / 10) hq]
      refine ⟨digitChar (n / 10), _, rfl, ?_⟩
      have : ∀ k : Fin 10, 1 ≤ (k : Nat) → digitChar k ≠ '0' := by decide
      have h := this ⟨n / 10, hq⟩ (by simpa using hq1)
      simpa using h
    · obtain ⟨d, ds, hds, hd⟩ := ih (n / 10) (by omega) (by omega)
      exact ⟨d, ds ++ [digitChar (n % 10)], by rw [hds]; rfl, hd⟩

theorem isDec_ne (c : Char) (h : isDec c = true) :
    c ≠ '-' ∧ c ≠ '.' ∧ c ≠ 'e' ∧ c ≠ 'E' ∧ c ≠ 'n' ∧ c ≠ 't' ∧ c ≠ 'f'
    ∧ c ≠ '"' ∧ c ≠ '[' ∧ c ≠ '{' ∧ c ≠ ']' ∧ c ≠ '}' ∧ c ≠ ','
    ∧ isWsChar c = false := by
  refine ⟨?_, ?_, ?_, ?_, ?_, ?_, ?_, ?_, ?_, ?_, ?_, ?_, ?_, ?_⟩
  all_goals first
    | (intro heq; subst heq; exact absurd h (by decide))
    | (simp only [isWsChar, Bool.or_eq_false_iff, beq_eq_false_iff_ne]
       refine ⟨⟨⟨?_, ?_⟩, ?_⟩, ?_⟩ <;> (intro heq; subst heq; exact absurd h (by decide)))

theorem spanDigits_stop (cs : List Char) (h : numDelim cs = true) :
    spanDigits cs = ([], cs) := by
  match cs with
  | [] => rfl
  | c :: t =>
    simp only [numDelim, Bool.not_eq_true', Bool.or_eq_false_iff,
      decide_eq_false_iff_not] at h
    simp [spanDigits, h.1.1.1]

theorem spanDigits_run : ∀ (ds rest : List Char), (∀ c ∈ ds, isDec c = true) →
    spanDigits rest = ([], rest) → spanDigits (ds ++ rest) = (ds, rest) := by
  intro ds
  induction ds with
  | nil => intro rest _ h; simpa using h
  | cons c t ih =>
    intro rest hds hrest
    have hc : isDec c = true := hds c (by simp)
    simp only [List.cons_append, spanDigits, hc, if_true, List.append_eq,
      ih rest (fun x hx => hds x (by simp [hx])) hrest]

theorem parseNatPart_natChars (n : Nat) (rest : List Char)
    (hr : numDelim rest = true) :
    parseNatPart (natChars n ++ rest) = some (n, rest) := by
  have hspan : spanDigits (natChars n ++ rest) = (natChars n, rest) :=
    spanDigits_run _ _ (natChars_digits n) (spanDigits_stop rest hr)
  by_cases h10 : n < 10
  · rw [natChars_small n h10] at hspan ⊢
    simp only [parseNatPart, hspan]
    have hval : digitsVal [digitChar n] = n := by
      have := digitsVal_natChars n
      rwa [natChars_small n h10] at this
    match rest, hr with
    | [], _ => simp [hval]
    | c :: t, hr =>
      simp only [numDelim, Bool.not_eq_true', Bool.or_eq_false_iff,
        decide_eq_false_iff_not] at hr
      simp [hval, hr.1.1.2, hr.1.2, hr.2]
  · obtain ⟨d, ds, hds, hd0⟩ := natChars_head_ne_zero n (by omega)
    rw [hds] at hspan ⊢
    rw [List.cons_append] at hspan
    simp only [List.cons_append, parseNatPart, hspan]
    rw [if_neg (by simp [hd0])]
    have hval : digitsVal (d :: ds) = n := by
      have := digitsVal_natChars n
      rwa [hds] at this
    match rest, hr with
    | [], _ => simp [hval]
    | c :: t, hr =>
      simp only [numDelim, Bool.not_eq_true', Bool.or_eq_false_iff,
        decide_eq_false_iff_not] at hr
      simp [hval, hr.1.1.2, hr.1.2, hr.2]

theorem parseIntNum_intChars (i : Int) (rest : List Char)
    (hr : numDelim rest = true) :
    parseIntNum (intChars i ++ rest) = some (i, rest) := by
  by_cases hneg : i < 0
  · have harg : intChars i ++ rest = '-' :: (natChars i.natAbs ++ rest) := by
      simp [intChars, hneg]
    rw [harg]
    simp only [parseIntNum, if_pos rfl, parseNatPart_natChars i.natAbs rest hr]
    have : -(i.natAbs : Int) = i := by omega
    simp [this]
    rw [abs_of_neg hneg, neg_neg]
  · obtain ⟨d, ds, hds⟩ : ∃ d ds, natChars i.natAbs = d :: ds := by
      match h : natChars i.natAbs with
      | [] => exact absurd h (natChars_ne_nil _)
      | d :: ds => exact ⟨d, ds, rfl⟩
    have hd : isDec d = true := by
      have := natChars_digits i.natAbs
      rw [hds] at this
      exact this d (by simp)
    have harg : intChars i ++ rest = d :: (ds ++ rest) := by
      simp [intChars, hneg, hds]
    rw [harg]
    simp only [parseIntNum, if_neg (isDec_ne d hd).1]
    have hp : parseNatPart (d :: (ds ++ rest)) = some (i.natAbs, rest) := by
      have := parseNatPart_natChars i.natAbs rest hr
      rwa [hds, List.cons_append] at this
    rw [hp]
    have : (i.natAbs : Int) = i := by omega
    simp [this]

theorem hexVal?_hexDigit : ∀ k : Fin 16, hexVal? (hexDigit k) = some (k : Nat) := by
  decide

theorem hexVal?_hexDigit_nat (k : Nat) :
    hexVal? (hexDigit (k % 16)) = some (k % 16) := by
  simpa using hexVal?_hexDigit ⟨k % 16, by omega⟩

theorem hex4?_uEscape (n : Nat) (h : n < 65536) :
    hex4? (hexDigit (n / 4096 % 16)) (hexDigit (n / 256 % 16))
      (hexDigit (n / 16 % 16)) (hexDigit (n % 16)) = some n := by
  simp only [hex4?, hexVal?_hexDigit_nat]
  congr 1
  omega

theorem parseStrChars_u (a b c d : Char) (rest : List Char) (n : Nat)
    (hn : hex4? a b c d = some n) (hsur : ¬(55296 ≤ n ∧ n < 57344)) :
    parseStrChars ('\\' :: 'u' :: a :: b :: c :: d :: rest) =
      (parseStrChars rest).map (fun p => (Char.ofNat n :: p.1, p.2)) := by
  simp only [parseStrChars, hn]
  rw [if_neg (by omega), if_neg (by omega)]

theorem parseStrChars_pair (a b c d a2 b2 c2 d2 : Char) (rest : List Char)
    (n m : Nat) (hn : hex4? a b c d = some n) (hm : hex4? a2 b2 c2 d2 = some m)
    (h1 : 55296 ≤ n) (h2 : n < 56320) (h3 : 56320 ≤ m) (h4 : m < 57344) :
    parseStrChars ('\\' :: 'u' :: a :: b :: c :: d :: '\\' :: 'u' :: a2 :: b2 :: c2 :: d2 :: rest) =
      (parseStrChars rest).map (fun p =>
        (Char.ofNat (65536 + (n - 55296) * 1024 + (m - 56320)) :: p.1, p.2)) := by
  simp only [parseStrChars, hn, hm]
  rw [if_pos ⟨h1, h2⟩, if_pos ⟨h3, h4⟩]

theorem parseStrChars_uEscape (n : Nat) (h16 : n < 65536)
    (hsur : ¬(55296 ≤ n ∧ n < 57344)) (rest : List Char) :
    parseStrChars (uEscape n ++ rest) =
      (parseStrChars rest).map (fun p => (Char.ofNat n :: p.1, p.2)) := by
  simp only [uEscape, List.cons_append, List.nil_append]
  exact parseStrChars_u _ _ _ _ rest n (hex4?_uEscape n h16) hsur

theorem parseStrChars_surrogates (t : Nat) (h1 : 65536 ≤ t) (h2 : t < 1114112)
    (rest : List Char) :
    parseStrChars (uEscape (55296 + (t - 65536) / 1024)
        ++ (uEscape (56320 + (t - 65536) % 1024) ++ rest)) =
      (parseStrChars rest).map (fun p => (Char.ofNat t :: p.1, p.2)) := by
  have hpair := parseStrChars_pair
    (hexDigit ((55296 + (t - 65536) / 1024) / 4096 % 16))
    (hexDigit ((55296 + (t - 65536) / 1024) / 256 % 16))
    (hexDigit ((55296 + (t - 65536) / 1024) / 16 % 16))
    (hexDigit ((55296 + (t - 65536) / 1024) % 16))
    (hexDigit ((56320 + (t - 65536) % 1024) / 4096 % 16))
    (hexDigit ((56320 + (t - 65536) % 1024) / 256 % 16))
    (hexDigit ((56320 + (t - 65536) % 1024) / 16 % 16))
    (hexDigit ((56320 + (t - 65536) % 1024) % 16))
    rest (55296 + (t - 65536) / 1024) (56320 + (t - 65536) % 1024)
    (hex4?_uEscape _ (by omega)) (hex4?_uEscape _ (by omega))
    (by omega) (by omega) (by omega) (by omega)
  have harith : 65536 + (55296 + (t - 65536) / 1024 - 55296) * 1024
      + (56320 + (t - 65536) % 1024 - 56320) = t := by omega
  simp only [uEscape, List.cons_append, List.nil_append]
  rw [hpair]
  simp only [harith]

theorem parseStrChars_other (c : Char) (h1 : c ≠ '"') (h2 : c ≠ '\\')
    (rest : List Char) :
    parseStrChars (c :: rest) =
      if c.toNat < 32 then none
      else (parseStrChars rest).map (fun p => (c :: p.1, p.2)) := by
  rw [parseStrChars.eq_def]
  split <;> simp_all

theorem parseStrChars_escChar (c : Char) (rest : List Char) :
    parseStrChars (escChar c ++ rest) =
      (parseStrChars rest).map (fun p => (c :: p.1, p.2)) := by
  by_cases hq : c = '"'
  · subst hq; rfl
  by_cases hb : c = '\\'
  · subst hb; rfl
  by_cases h8 : c = Char.ofNat 8
  · subst h8; rfl
  by_cases h9 : c = Char.ofNat 9
  · subst h9; rfl
  by_cases h10 : c = Char.ofNat 10
  · subst h10; rfl
  by_cases h12 : c = Char.ofNat 12
  · subst h12; rfl
  by_cases h13 : c = Char.ofNat 13
  · subst h13; rfl
  have hch := char_toNat_valid c
  by_cases h32 : c.toNat < 32
  · have he : escChar c = uEscape c.toNat := by
      simp only [escChar, if_neg hq, if_neg hb, if_neg h8, if_neg h9, if_neg h10,
        if_neg h12, if_neg h13, if_pos h32]
    rw [he, parseStrChars_uEscape c.toNat (by omega) (by omega) rest]
    simp only [Char.ofNat_toNat]
  by_cases h126 : c.toNat ≤ 126
  · have he : escChar c = [c] := by
      simp only [escChar, if_neg hq, if_neg hb, if_neg h8, if_neg h9, if_neg h10,
        if_neg h12, if_neg h13, if_neg h32, if_pos h126]
    rw [he, List.singleton_append, parseStrChars_other c hq hb rest, if_neg h32]
  by_cases hbmp : c.toNat < 65536
  · have he : escChar c = uEscape c.toNat := by
      simp only [escChar, if_neg hq, if_neg hb, if_neg h8, if_neg h9, if_neg h10,
        if_neg h12, if_neg h13, if_neg h32, if_neg h126, if_pos hbmp]
    rw [he, parseStrChars_uEscape c.toNat hbmp hch.2 rest]
    simp only [Char.ofNat_toNat]
  · have he : escChar c = uEscape (55296 + (c.toNat - 65536) / 1024)
        ++ uEscape (56320 + (c.toNat - 65536) % 1024) := by
      simp only [escChar, if_neg hq, if_neg hb, if_neg h8, if_neg h9, if_neg h10,
        if_neg h12, if_neg h13, if_neg h32, if_neg h126, if_neg hbmp]
    rw [he, List.append_assoc,
      parseStrChars_surrogates c.toNat (by omega) (by omega) rest]
    simp only [Char.ofNat_toNat]

theorem parseStrChars_print : ∀ (s rest : List Char),
    parseStrChars (s.flatMap escChar ++ ('"' :: rest)) = some (s, rest)
  | [], _ => rfl
  | c :: t, rest => by
    rw [List.flatMap_cons, List.append_assoc, parseStrChars_escChar,
      parseStrChars_print t rest]
    rfl

theorem dropWs_not_ws (c : Char) (l : List Char) (h : isWsChar c = false) :
    dropWs (c :: l) = c :: l := by
  simp [dropWs, h]

theorem parseVal_str (f : Nat) (r : List Char) :
    parseVal (f + 1) ('"' :: r) =
      (parseStrChars r).map (fun p => (Json.str (String.mk p.1), p.2)) := rfl

theorem parseVal_cons_ws (f : Nat) (c : Char) (l : List Char)
    (h : isWsChar c = true) : parseVal f (c :: l) = parseVal f l := by
  cases f with
  | zero => rfl
  | succ f => simp only [parseVal, dropWs, h, if_true]

theorem parseItems_cons_ws (f : Nat) (c : Char) (l : List Char)
    (h : isWsChar c = true) : parseItems f (c :: l) = parseItems f l := by
  cases f with
  | zero => rfl
  | succ f => simp only [parseItems, parseVal_cons_ws f c l h]

theorem parseMembers_cons_ws (f : Nat) (c : Char) (l : List Char)
    (h : isWsChar c = true) : parseMembers f (c :: l) = parseMembers f l := by
  cases f with
  | zero => rfl
  | succ f => simp only [parseMembers, dropWs, h, if_true]

theorem parseVal_numHead (f : Nat) (c : Char) (r : List Char)
    (hc : c = '-' ∨ isDec c = true) :
    parseVal (f + 1) (c :: r) =
      match parseIntNum (c :: r) with
      | some (n, r') => some (Json.num n, r')
      | none => none := by
  rcases hc with rfl | hdec
  · rfl
  · obtain ⟨-, -, -, -, hn, ht, hf, hq, hlb, hlc, -, -, -, hws⟩ := isDec_ne c hdec
    simp only [parseVal]
    rw [dropWs_not_ws c r hws]
    split <;> simp_all

theorem parseVal_arrHead (f : Nat) (c : Char) (t : List Char)
    (h : isWsChar c = false) (hne : c ≠ ']') :
    parseVal (f + 1) ('[' :: (c :: t)) =
      (parseItems f (c :: t)).map (fun p => (Json.arr p.1, p.2)) := by
  have h1 : parseVal (f + 1) ('[' :: (c :: t)) =
      match dropWs (c :: t) with
      | [] => none
      | c' :: r' =>
        if c' = ']' then some (Json.arr [], r')
        else (parseItems f (c' :: r')).map (fun p => (Json.arr p.1, p.2)) := rfl
  rw [h1, dropWs_not_ws c t h]
  show (if c = ']' then some (Json.arr [], t)
      else (parseItems f (c :: t)).map (fun p => (Json.arr p.1, p.2))) = _
  rw [if_neg hne]

theorem parseVal_objHead (f : Nat) (c : Char) (t : List Char)
    (h : isWsChar c = false) (hne : c ≠ '\x7d') :
    parseVal (f + 1) ('\x7b' :: (c :: t)) =
      (parseMembers f (c :: t)).map (fun p => (Json.obj p.1, p.2)) := by
  have h1 : parseVal (f + 1) ('\x7b' :: (c :: t)) =
      match dropWs (c :: t) with
      | [] => none
      | c' :: r' =>
        if c' = '\x7d' then some (Json.obj [], r')
        else (parseMembers f (c' :: r')).map (fun p => (Json.obj p.1, p.2)) := rfl
  rw [h1, dropWs_not_ws c t h]
  show (if c = '\x7d' then some (Json.obj [], t)
      else (parseMembers f (c :: t)).map (fun p => (Json.obj p.1, p.2))) = _
  rw [if_neg hne]

theorem intChars_head (i : Int) :
    ∃ c t, intChars i = c :: t ∧ (c = '-' ∨ isDec c = true) := by
  by_cases hneg : i < 0
  · exact ⟨'-', natChars i.natAbs, by simp [intChars, hneg], Or.inl rfl⟩
  · obtain ⟨d, ds, hds⟩ : ∃ d ds, natChars i.natAbs = d :: ds := by
      match h : natChars i.natAbs with
      | [] => exact absurd h (natChars_ne_nil _)
      | d :: ds => exact ⟨d, ds, rfl⟩
    have hd : isDec d = true := by
      have := natChars_digits i.natAbs
      rw [hds] at this
      exact this d (by simp)
    exact ⟨d, ds, by simp [intChars, hneg, hds], Or.inr hd⟩

theorem printJson_head (j : Json) :
    ∃ c t, printJson j = c :: t ∧ isWsChar c = false ∧ c ≠ ']' ∧ c ≠ '\x7d' := by
  have hlit : ∀ c, c ∈ ['n', 't', 'f', '"', '[', '\x7b', '-'] →
      isWsChar c = false ∧ c ≠ ']' ∧ c ≠ '\x7d' := by decide
  cases j with
  | null => exact ⟨'n', _, rfl, hlit 'n' (by decide)⟩
  | bool b =>
    cases b with
    | true => exact ⟨'t', _, rfl, hlit 't' (by decide)⟩
    | false => exact ⟨'f', _, rfl, hlit 'f' (by decide)⟩
  | num i =>
    obtain ⟨c, t, hct, hc⟩ := intChars_head i
    rcases hc with rfl | hdec
    · exact ⟨'-', t, by simp [printJson, hct], hlit '-' (by decide)⟩
    · obtain ⟨-, -, -, -, -, -, -, -, -, -, hrb, hrc, -, hws⟩ := isDec_ne c hdec
      exact ⟨c, t, by simp [printJson, hct], hws, hrb, hrc⟩
  | str s => exact ⟨'"', _, rfl, hlit '"' (by decide)⟩
  | arr xs => exact ⟨'[', _, rfl, hlit '[' (by decide)⟩
  | obj kvs => exact ⟨'\x7b', _, rfl, hlit '\x7b' (by decide)⟩

theorem printJson_length_pos (j : Json) : 1 ≤ (printJson j).length := by
  obtain ⟨c, t, hct, -, -, -⟩ := printJson_head j
  simp [hct]

theorem printItems_head (x : Json) (xs : List Json) :
    ∃ c t, printItems (x :: xs) = c :: t ∧ isWsChar c = false ∧ c ≠ ']' := by
  obtain ⟨c, t, hct, h1, h2, h3⟩ := printJson_head x
  cases xs with
  | nil => exact ⟨c, t, by simp [printItems, hct], h1, h2⟩
  | cons y ys =>
    exact ⟨c, t ++ ',' :: ' ' :: printItems (y :: ys),
      by simp [printItems, hct], h1, h2⟩

theorem printMembers_head (k : String) (v : Json) (kvs : List (String × Json)) :
    ∃ t, printMembers ((k, v) :: kvs) = '"' :: t := by
  cases kvs with
  | nil => exact ⟨_, rfl⟩
  | cons w ws => exact ⟨_, rfl⟩

theorem printStr_length (s : String) :
    (printStr s).length = (s.data.flatMap escChar).length + 2 := by
  simp [printStr]

theorem jsonParsePrint : ∀ fuel : Nat,
    (∀ (j : Json) (rest : List Char), (printJson j).length < fuel →
       numDelim rest = true →
       parseVal fuel (printJson j ++ rest) = some (j, rest)) ∧
    (∀ (x : Json) (xs : List Json) (rest : List Char),
       (printItems (x :: xs)).length + 1 < fuel →
       parseItems fuel (printItems (x :: xs) ++ ']' :: rest) = some (x :: xs, rest)) ∧
    (∀ (k : String) (v : Json) (kvs : List (String × Json)) (rest : List Char),
       (printMembers ((k, v) :: kvs)).length + 1 < fuel →
       parseMembers fuel (printMembers ((k, v) :: kvs) ++ '\x7d' :: rest)
         = some ((k, v) :: kvs, rest)) := by
  intro fuel
  induction fuel using Nat.strong_induction_on with
  | _ fuel ih =>
  cases fuel with
  | zero =>
    exact ⟨fun j rest h _ => absurd h (by omega),
      fun x xs rest h => absurd h (by omega),
      fun k v kvs rest h => absurd h (by omega)⟩
  | succ f =>
  refine ⟨?_, ?_, ?_⟩
  · intro j rest hlen hrest
    cases j with
    | null => rfl
    | bool b => cases b <;> rfl
    | num i =>
      obtain ⟨c, t, hct, hc⟩ := intChars_head i
      have hpi : parseIntNum (intChars i ++ rest) = some (i, rest) :=
        parseIntNum_intChars i rest hrest
      simp only [printJson]
      rw [hct, List.cons_append, parseVal_numHead f c (t ++ rest) hc,
        ← List.cons_append, ← hct, hpi]
    | str s =>
      simp only [printJson, printStr, List.cons_append, List.append_assoc,
        List.singleton_append, List.nil_append]
      rw [parseVal_str, parseStrChars_print s.data rest]
      rfl
    | arr xs =>
      cases xs with
      | nil => rfl
      | cons x xs' =>
        obtain ⟨c, t, hct, hws, hrb⟩ := printItems_head x xs'
        have hlen' : (printItems (x :: xs')).length + 1 < f := by
          simp only [printJson, List.length_cons, List.length_append,
            List.length_singleton] at hlen
          omega
        simp only [printJson, List.cons_append, List.append_assoc,
          List.singleton_append, List.nil_append]
        rw [hct, List.cons_append, parseVal_arrHead f c _ hws hrb,
          ← List.cons_append, ← hct, (ih f (by omega)).2.1 x xs' rest hlen']
        rfl
    | obj kvs =>
      cases kvs with
      | nil => rfl
      | cons kv kvs' =>
        obtain ⟨k, v⟩ := kv
        obtain ⟨t, hct⟩ := printMembers_head k v kvs'
        have hlen' : (printMembers ((k, v) :: kvs')).length + 1 < f := by
          simp only [printJson, List.length_cons, List.length_append,
            List.length_singleton] at hlen
          omega
        simp only [printJson, List.cons_append, List.append_assoc,
          List.singleton_append, List.nil_append]
        rw [hct, List.cons_append, parseVal_objHead f '"' _ (by decide) (by decide),
          ← List.cons_append, ← hct, (ih f (by omega)).2.2 k v kvs' rest hlen']
        rfl
  · intro x xs rest hlen
    cases xs with
    | nil =>
      have hx : (printJson x).length < f := by
        simp only [printItems] at hlen
        omega
      simp only [printItems, parseItems]
      rw [(ih f (by omega)).1 x (']' :: rest) hx rfl]
      rfl
    | cons y ys =>
      have h1 : 1 ≤ (printJson x).length := printJson_length_pos x
      have hx : (printJson x).length < f := by
        simp only [printItems, List.length_append, List.length_cons] at hlen
        omega
      have hys : (printItems (y :: ys)).length + 1 < f := by
        simp only [printItems, List.length_append, List.length_cons] at hlen
        omega
      simp only [printItems, parseItems, List.append_assoc, List.cons_append]
      rw [(ih f (by omega)).1 x
        (',' :: ' ' :: (printItems (y :: ys) ++ ']' :: rest)) hx rfl]
      show (parseItems f (' ' :: (printItems (y :: ys) ++ ']' :: rest))).map
          (fun p => (x :: p.1, p.2)) = _
      rw [parseItems_cons_ws f ' ' _ rfl, (ih f (by omega)).2.1 y ys rest hys]
      rfl
  · intro k v kvs rest hlen
    have hstep : ∀ L : List Char, parseMembers (f + 1) ('"' :: L) =
        (match parseStrChars L with
         | none => none
         | some (kcs, r1) =>
           match dropWs r1 with
           | ':' :: r2 =>
             (match parseVal f r2 with
              | none => none
              | some (w, r3) =>
                match dropWs r3 with
                | ',' :: r4 =>
                  (parseMembers f r4).map (fun p =>
                    ((String.mk kcs, w) :: p.1, p.2))
                | '\x7d' :: r4 => some ([(String.mk kcs, w)], r4)
                | _ => none)
           | _ => none) := fun _ => rfl
    cases kvs with
    | nil =>
      have hv : (printJson v).length < f := by
        simp only [printMembers, printStr, List.length_append, List.length_cons] at hlen
        omega
      simp only [printMembers, printStr, List.cons_append, List.append_assoc,
        List.singleton_append, List.nil_append]
      rw [hstep, parseStrChars_print k.data
        (':' :: ' ' :: (printJson v ++ '\x7d' :: rest))]
      show (match parseVal f (' ' :: (printJson v ++ '\x7d' :: rest)) with
            | none => none
            | some (w, r3) =>
              match dropWs r3 with
              | ',' :: r4 =>
                (parseMembers f r4).map
                  (fun (p : List (String × Json) × List Char) =>
                    ((String.mk k.data, w) :: p.1, p.2))
              | '\x7d' :: r4 => some ([(String.mk k.data, w)], r4)
              | _ => none) = _
      rw [parseVal_cons_ws f ' ' _ rfl, (ih f (by omega)).1 v ('\x7d' :: rest) hv rfl]
      rfl
    | cons kv2 kvs' =>
      obtain ⟨k2, v2⟩ := kv2
      have hv : (printJson v).length < f := by
        simp only [printMembers, printStr, List.length_append, List.length_cons] at hlen
        omega
      have hkvs : (printMembers ((k2, v2) :: kvs')).length + 1 < f := by
        simp only [printMembers, printStr, List.length_append, List.length_cons] at hlen
        omega
      simp only [printMembers, printStr, List.cons_append, List.append_assoc,
        List.singleton_append, List.nil_append]
      rw [hstep, parseStrChars_print k.data
        (':' :: ' ' :: (printJson v ++ ',' :: ' ' ::
          (printMembers ((k2, v2) :: kvs') ++ '\x7d' :: rest)))]
      show (match parseVal f (' ' :: (printJson v ++ ',' :: ' ' ::
              (printMembers ((k2, v2) :: kvs') ++ '\x7d' :: rest))) with
            | none => none
            | some (w, r3) =>
              match dropWs r3 with
              | ',' :: r4 =>
                (parseMembers f r4).map
                  (fun (p : List (String × Json) × List Char) =>
                    ((String.mk k.data, w) :: p.1, p.2))
              | '\x7d' :: r4 => some ([(String.mk k.data, w)], r4)
              | _ => none) = _
      rw [parseVal_cons_ws f ' ' _ rfl,
        (ih f (by omega)).1 v
          (',' :: ' ' :: (printMembers ((k2, v2) :: kvs') ++ '\x7d' :: rest)) hv rfl]
      show (parseMembers f (' ' :: (printMembers ((k2, v2) :: kvs') ++ '\x7d' :: rest))).map
          (fun p => ((String.mk k.data, v) :: p.1, p.2)) = _
      rw [parseMembers_cons_ws f ' ' _ rfl,
        (ih f (by omega)).2.2 k2 v2 kvs' rest hkvs]
      rfl

theorem jsonLoads_jsonDumps (j : Json) : jsonLoads (jsonDumps j) = some j := by
  have h := (jsonParsePrint ((printJson j).length + 1)).1 j [] (by omega) rfl
  rw [List.append_nil] at h
  show (match parseVal ((printJson j).length + 1) (printJson j) with
        | some (v, r) => if dropWs r = [] then some v else none
        | none => none) = some j
  rw [h]
  rfl

/-- C3: the codec round-trip law — feeding the bytes produced for
outbound publishing through the inbound data-decoding path of
`handle_pubsub_message` (base64-decode, then UTF-8 decode, then JSON
parse) recovers the payload: decode (encode x) = x for every
JSON-serialisable payload x of the modelled domain. -/
theorem codec_roundtrip (j : Json) :
    decodeDataField (encodeForPush j) = some j := by
  simp only [encodeForPush, decodeDataField,
    b64Decode_b64Encode (utf8Encode (jsonDumps j)) (utf8Encode_lt_256 (jsonDumps j)),
    utf8Decode_utf8Encode (jsonDumps j)]
  exact jsonLoads_jsonDumps j

/-- C1 (amended): for every inbound body whose envelope decodes
successfully down to a payload, `handle_pubsub_message` invokes
`process_message` on the decoded payload, and the HTTP status tracks the
domain outcome: 200 when `process_message` returns normally, 400 — not
200 — when it raises (both `except` arms return 400). -/
theorem handle_decoded_payload_status (env : Json) (mkvs : List (String × Json))
    (ds : String) (payload : Json) (proc : Json → Except String Unit)
    (h1 : env.truthy = true)
    (h2 : env.get? "message" = some (.obj mkvs))
    (h3 : Json.get? (.obj mkvs) "data" = some (.str ds))
    (h4 : decodeDataField ds.data = some payload) :
    handle_pubsub_message (some env) proc =
      match proc payload with
      | .ok _ => (200, some payload)
      | .error _ => (400, some payload) := by
  simp only [handle_pubsub_message, h1, h2, h3, h4, runProcess]
  rw [if_neg (by simp)]

/-- C1 witness: the theorem applied at the concrete envelope `c1_body`
with a hook that raises. -/
theorem handle_decoded_payload_status_witness :
    handle_pubsub_message (some c1_body) (fun _ => Except.error "x")
      = (400, some (Json.obj [])) :=
  handle_decoded_payload_status c1_body [("data", Json.str "e30=")] "e30=" (Json.obj [])
    (fun _ => Except.error "x") rfl rfl rfl rfl

/-- C1 counterexample: for the well-formed envelope `c1_body` the payload
decodes and `process_message` is invoked, yet when the hook raises the
response status is 400, not the promised 200. -/
theorem handle_exception_400_counterexample :
    handle_pubsub_message (some c1_body) (fun _ => Except.error "boom")
      = (400, some (Json.obj [])) ∧ (400 : Nat) ≠ 200 := ⟨rfl, by decide⟩
